import Mathlib

/-!
Verification development for the fwpm document-transformation pipeline.

The definitions below are a shallow embedding of the Python sources
(`src/fwpm_app/workflow.py`, `src/fwpm_app/renderers.py`,
`src/fwpm_app/issue_content.py`, `src/fwpm_app/defaults.py`).
JSON-like Python values (`dict`/`list`/`str`/`None`) are embedded as the
inductive `JVal`; machine floats in the colour-brightness computation are
replaced by exact integer arithmetic scaled by 1000; fallible code paths
(`try`/`except`) return `Option`/`Except`.
-/

set_option maxRecDepth 20000

/-! ## Python string primitives -/

/-- The whitespace set stripped by Python `str.strip()` (ASCII part). -/
def pySpace (c : Char) : Bool :=
  c = ' ' || c = '\t' || c = '\n' || c = '\r' || c = '\x0b' || c = '\x0c'

/-- `str.strip()` on a character list. -/
def pyStripList (cs : List Char) : List Char :=
  ((cs.dropWhile pySpace).reverse.dropWhile pySpace).reverse

/-- Python `str.strip()` (no arguments: strips whitespace from both ends). -/
def pyStrip (s : String) : String :=
  ⟨pyStripList s.data⟩

/-- Python `str.lower()` (ASCII range, which is all the sources rely on). -/
def pyLower (s : String) : String :=
  ⟨s.data.map Char.toLower⟩

/-- Python `str.rstrip("/")`. -/
def rstripSlash (s : String) : String :=
  ⟨(s.data.reverse.dropWhile (· = '/')).reverse⟩

/-! ## Colour handling (`workflow.py`, `_status_text_colour` and friends) -/

/-- `DEFAULT_TEXT_COLOR` from `workflow.py`. -/
def DEFAULT_TEXT_COLOR : String := "#172B4D"

/-- `DEFAULT_STATUS_HEX` from `workflow.py`. -/
def DEFAULT_STATUS_HEX : String := "#7A869A"

/-- `SUBTLE_BACKGROUND_HEX` from `workflow.py`. -/
def SUBTLE_BACKGROUND_HEX : String := "#DFE1E6"

/-- `SUBTLE_BORDER_HEX` from `workflow.py`. -/
def SUBTLE_BORDER_HEX : String := "#A5ADBA"

/-- `INFO_PANEL_BACKGROUND` from `workflow.py`. -/
def INFO_PANEL_BACKGROUND : String := "#E9F2FF"

/-- `PANEL_DEFAULT_BORDER` from `workflow.py`. -/
def PANEL_DEFAULT_BORDER : String := "#0052CC"

/-- Value of a single hex digit, as accepted by Python `int(_, 16)`
(characters compared by code point, as `int` does). -/
def hexDigitVal (c : Char) : Option Nat :=
  if 48 ≤ c.toNat ∧ c.toNat ≤ 57 then some (c.toNat - 48)
  else if 97 ≤ c.toNat ∧ c.toNat ≤ 102 then some (c.toNat - 97 + 10)
  else if 65 ≤ c.toNat ∧ c.toNat ≤ 70 then some (c.toNat - 65 + 10)
  else none

/-- Python `int(s, 16)` on a slice: `none` models the `ValueError` raised on
an empty or non-hex string. -/
def pyIntHex : List Char → Option Nat
  | [] => none
  | cs => cs.foldl (fun acc c =>
      match acc, hexDigitVal c with
      | some a, some d => some (a * 16 + d)
      | _, _ => none) (some 0)

/-- The parsing half of `Workflow._status_text_colour` (workflow.py:1009-1016):
`hex_code = background_hex.lstrip("#")` followed by `int(hex_code[i:i+2], 16)`
for `i in (0, 2, 4)`; `none` models the caught `ValueError`/`TypeError`. -/
def parseRGB (backgroundHex : String) : Option (Nat × Nat × Nat) :=
  let cs := backgroundHex.data.dropWhile (· = '#')
  match pyIntHex (cs.take 2), pyIntHex ((cs.drop 2).take 2),
      pyIntHex ((cs.drop 4).take 2) with
  | some r, some g, some b => some (r, g, b)
  | _, _, _ => none

/-! ### The double-precision brightness computation

`_status_text_colour` evaluates `(0.299 * r) + (0.587 * g) + (0.114 * b)`
in IEEE-754 binary64 arithmetic.  That arithmetic is embedded exactly:
non-negative doubles are dyadics `m * 2^e` with a 53-bit significand, each
operation computes the exact product/sum and rounds it to 53 significant
bits with round-to-nearest, ties-to-even — which is precisely the
correctly-rounded result the hardware produces (the magnitudes involved,
0.1 .. 400, are far from overflow and subnormal ranges).  The decimal
literals `0.299`, `0.587`, `0.114` denote their nearest binary64 values,
written out as dyadics below (each is checked to be within half an ulp of
the decimal fraction). -/

/-- Bit length of a natural number (fuel-driven so that it computes in the
kernel; the fuel is the number itself, ample since the length is
logarithmic). -/
def bitLenAux : Nat → Nat → Nat
  | 0, _ => 0
  | _, 0 => 0
  | fuel + 1, n => bitLenAux fuel (n / 2) + 1

/-- Bit length: 0 for 0, otherwise the `k` with `2^(k-1) ≤ n < 2^k`. -/
def bitLen (n : Nat) : Nat := bitLenAux n n

/-- Round a natural number to 53 significant bits, round-to-nearest with
ties-to-even: returns `(m, s)` with value `m * 2^s`. -/
def rnd53 (N : Nat) : Nat × Nat :=
  let s := bitLen N - 53
  let q := N / 2 ^ s
  let r := N % 2 ^ s
  (if 2 * r > 2 ^ s ∨ (2 * r = 2 ^ s ∧ q % 2 = 1) then q + 1 else q, s)

/-- The rational value of a non-negative binary64 datum `m * 2^e`. -/
def FP.val (x : Nat × Int) : ℚ := (x.1 : ℚ) * (2 : ℚ) ^ x.2

/-- Binary64 multiplication by a (small) natural number: exact product,
then correctly rounded. -/
def fpMulNat (x : Nat × Int) (n : Nat) : Nat × Int :=
  let p := rnd53 (x.1 * n)
  (p.1, x.2 + p.2)

/-- Binary64 addition of non-negative data: exact aligned sum, then
correctly rounded. -/
def fpAdd (x y : Nat × Int) : Nat × Int :=
  let e := min x.2 y.2
  let p := rnd53 (x.1 * 2 ^ (x.2 - e).toNat + y.1 * 2 ^ (y.2 - e).toNat)
  (p.1, e + p.2)

/-- The binary64 value of the literal `0.299`
(= 5386305154335113 * 2^-54, the nearest double). -/
def C299 : Nat × Int := (5386305154335113, -54)

/-- The binary64 value of the literal `0.587`
(= 5287225962532962 * 2^-53, the nearest double). -/
def C587 : Nat × Int := (5287225962532962, -53)

/-- The binary64 value of the literal `0.114`
(= 8214565720323785 * 2^-56, the nearest double). -/
def C114 : Nat × Int := (8214565720323785, -56)

/-- `(0.299 * r) + (0.587 * g) + (0.114 * b)` evaluated left-to-right in
binary64, exactly as workflow.py:1018 does. -/
def floatBrightness (r g b : Nat) : Nat × Int :=
  fpAdd (fpAdd (fpMulNat C299 r) (fpMulNat C587 g)) (fpMulNat C114 b)

/-- The Python comparison `brightness >= 170`: a float-int comparison is
exact, so it is the exact dyadic comparison `m * 2^e ≥ 170`. -/
def fpGE170 (x : Nat × Int) : Bool :=
  if 0 ≤ x.2 then decide (170 ≤ x.1 * 2 ^ x.2.toNat)
  else decide (170 * 2 ^ (-x.2).toNat ≤ x.1)

/-- `Workflow._status_text_colour` (workflow.py:1009-1019): parse the hex
pairs, compute the brightness in double precision, and compare with 170
(dark text at or above, white below). -/
def statusTextColour (backgroundHex : String) : String :=
  match parseRGB backgroundHex with
  | none => "#FFFFFF"
  | some (r, g, b) =>
      if fpGE170 (floatBrightness r g b) then DEFAULT_TEXT_COLOR else "#FFFFFF"

/-! ## JSON-like Python values -/

/-- Embedding of the JSON-ish Python values the pipeline manipulates
(`None`, `bool`, `int`, `str`, `list`, `dict`).  Dictionaries are ordered
association lists, as in Python. -/
inductive JVal where
  | null : JVal
  | bool (b : Bool) : JVal
  | int (n : Int) : JVal
  | str (s : String) : JVal
  | arr (items : List JVal) : JVal
  | obj (fields : List (String × JVal)) : JVal
deriving Repr

mutual

/-- Boolean equality on `JVal` (the automatic derivation does not handle the
nested lists). -/
def JVal.beq : JVal → JVal → Bool
  | .null, .null => true
  | .bool a, .bool b => a == b
  | .int a, .int b => a == b
  | .str a, .str b => a == b
  | .arr a, .arr b => JVal.beqList a b
  | .obj a, .obj b => JVal.beqFields a b
  | _, _ => false

/-- Elementwise `JVal.beq` on lists. -/
def JVal.beqList : List JVal → List JVal → Bool
  | [], [] => true
  | a :: as, b :: bs => JVal.beq a b && JVal.beqList as bs
  | _, _ => false

/-- Pairwise `JVal.beq` on dictionary entries. -/
def JVal.beqFields : List (String × JVal) → List (String × JVal) → Bool
  | [], [] => true
  | (k1, v1) :: as, (k2, v2) :: bs => k1 == k2 && JVal.beq v1 v2 && JVal.beqFields as bs
  | _, _ => false

end

mutual

theorem JVal.eq_of_beq : ∀ {a b : JVal}, JVal.beq a b = true → a = b
  | .null, .null, _ => rfl
  | .bool _, .bool _, h => by simpa [JVal.beq] using h
  | .int _, .int _, h => by simpa [JVal.beq] using h
  | .str _, .str _, h => by simpa [JVal.beq] using h
  | .arr a, .arr b, h => by
      have := JVal.eqList_of_beq (a := a) (b := b) (by simpa [JVal.beq] using h)
      simp [this]
  | .obj a, .obj b, h => by
      have := JVal.eqFields_of_beq (a := a) (b := b) (by simpa [JVal.beq] using h)
      simp [this]

theorem JVal.eqList_of_beq : ∀ {a b : List JVal}, JVal.beqList a b = true → a = b
  | [], [], _ => rfl
  | x :: xs, y :: ys, h => by
      have h1 : JVal.beq x y = true := by
        have := h; simp [JVal.beqList] at this; exact this.1
      have h2 : JVal.beqList xs ys = true := by
        have := h; simp [JVal.beqList] at this; exact this.2
      have e1 := JVal.eq_of_beq h1
      have e2 := JVal.eqList_of_beq h2
      simp [e1, e2]

theorem JVal.eqFields_of_beq :
    ∀ {a b : List (String × JVal)}, JVal.beqFields a b = true → a = b
  | [], [], _ => rfl
  | (k1, v1) :: xs, (k2, v2) :: ys, h => by
      have h0 : k1 = k2 ∧ JVal.beq v1 v2 = true ∧ JVal.beqFields xs ys = true := by
        have := h; simp [JVal.beqFields, Bool.and_eq_true] at this
        exact ⟨this.1.1, this.1.2, this.2⟩
      have e1 := JVal.eq_of_beq h0.2.1
      have e2 := JVal.eqFields_of_beq h0.2.2
      simp [h0.1, e1, e2]

end

mutual

theorem JVal.beq_refl : ∀ a : JVal, JVal.beq a a = true
  | .null => rfl
  | .bool b => by simp [JVal.beq]
  | .int n => by simp [JVal.beq]
  | .str s => by simp [JVal.beq]
  | .arr a => by simp [JVal.beq, JVal.beqList_refl a]
  | .obj a => by simp [JVal.beq, JVal.beqFields_refl a]

theorem JVal.beqList_refl : ∀ a : List JVal, JVal.beqList a a = true
  | [] => rfl
  | x :: xs => by simp [JVal.beqList, JVal.beq_refl x, JVal.beqList_refl xs]

theorem JVal.beqFields_refl : ∀ a : List (String × JVal), JVal.beqFields a a = true
  | [] => rfl
  | (k, v) :: xs => by simp [JVal.beqFields, JVal.beq_refl v, JVal.beqFields_refl xs]

end

instance : DecidableEq JVal := fun a b =>
  if h : JVal.beq a b = true then .isTrue (JVal.eq_of_beq h)
  else .isFalse (fun he => h (he ▸ JVal.beq_refl a))

/-- Dictionary lookup (`d.get(k)` / `d[k]`), first binding wins. -/
def jLookup : List (String × JVal) → String → Option JVal
  | [], _ => none
  | (k, v) :: rest, key => if k = key then some v else jLookup rest key

/-- `value.get(key)` on a `JVal`: `none` when the value is not a dict or the
key is absent. -/
def JVal.get (v : JVal) (key : String) : Option JVal :=
  match v with
  | .obj fields => jLookup fields key
  | _ => none

/-- `value.get(key, default)`. -/
def JVal.getD (v : JVal) (key : String) (dflt : JVal) : JVal :=
  (v.get key).getD dflt

/-- Python truthiness of an embedded value. -/
def JVal.truthy : JVal → Bool
  | .null => false
  | .bool b => b
  | .int n => n ≠ 0
  | .str s => s ≠ ""
  | .arr items => !items.isEmpty
  | .obj fields => !fields.isEmpty

/-- `value or default` (Python), specialised to `JVal`. -/
def JVal.orElse (v dflt : JVal) : JVal :=
  if v.truthy then v else dflt

/-- `(d.get(k) or {})`-style access used pervasively in the sources. -/
def jGetOr (v : JVal) (key : String) (dflt : JVal) : JVal :=
  JVal.orElse (v.getD key .null) dflt

/-- The string contents of a `JVal` when it is a string. -/
def JVal.asStr : JVal → Option String
  | .str s => some s
  | _ => none

/-! ## HTML tokenisation and the structure validator
(`workflow.py`, `_HTMLStructureValidator`, lines 1211-1260)

The validator is driven by Python's `html.parser.HTMLParser`, which feeds
`handle_starttag` / `handle_startendtag` / `handle_endtag` events.  The
tokenizer below reproduces those events for the markup shapes the pipeline
emits: tags with optionally double-quoted attribute values, self-closing
(`<foo/>`) tags reported as start-end events, and plain text.
`HTMLParser` lower-cases tag names before dispatching, which the tokenizer
mirrors. -/

/-- Parser events dispatched by `html.parser.HTMLParser`. -/
inductive HtmlEvent where
  | start (tag : String) : HtmlEvent
  | startEnd (tag : String) : HtmlEvent
  | endTag (tag : String) : HtmlEvent
  | chunk (text : String) : HtmlEvent
deriving Repr, DecidableEq

/-- Characters `HTMLParser` accepts inside a tag name. -/
def tagNameChar (c : Char) : Bool :=
  c.isAlpha || c.isDigit || c = ':' || c = '-' || c = '.' || c = '_'

/-- Scan the remainder of a start tag: skip attributes (honouring
double-quoted values) up to `>`, reporting whether the tag ended with `/>`.
Returns `(selfClosing, rest)`.  Fuel-driven (each step consumes at least one
character, so fuel = length + 1 always suffices). -/
def scanTagEndAux : Nat → List Char → Bool → Bool × List Char
  | 0, cs, _ => (false, cs)
  | _, [], _ => (false, [])
  | _ + 1, '>' :: rest, slash => (slash, rest)
  | fuel + 1, '"' :: rest, _ =>
      (match rest.dropWhile (· ≠ '"') with
      | [] => (false, [])
      | _ :: rest2 => scanTagEndAux fuel rest2 false)
  | fuel + 1, '/' :: rest, _ => scanTagEndAux fuel rest true
  | fuel + 1, _ :: rest, _ => scanTagEndAux fuel rest false

/-- Entry point for `scanTagEndAux` with sufficient fuel. -/
def scanTagEnd (cs : List Char) (slash : Bool) : Bool × List Char :=
  scanTagEndAux (cs.length + 1) cs slash

/-- Tokenise HTML into `HTMLParser` events (fuel-driven; the fuel is set to
the input length plus one, which one consumed character per step makes
sufficient). -/
def tokenizeAux : Nat → List Char → List HtmlEvent
  | 0, _ => []
  | _, [] => []
  | fuel + 1, cs =>
    match cs with
    | '<' :: '/' :: rest =>
        let nameCs := (rest.dropWhile pySpace).takeWhile tagNameChar
        let afterName := rest.dropWhile (· ≠ '>')
        let rest2 := match afterName with
          | [] => []
          | _ :: r => r
        .endTag (pyLower ⟨nameCs⟩) :: tokenizeAux fuel rest2
    | '<' :: c :: rest =>
        if c.isAlpha then
          let nameCs := c :: rest.takeWhile tagNameChar
          let afterName := rest.drop (rest.takeWhile tagNameChar).length
          let (selfClosing, rest2) := scanTagEnd afterName false
          (if selfClosing then .startEnd (pyLower ⟨nameCs⟩)
           else .start (pyLower ⟨nameCs⟩)) :: tokenizeAux fuel rest2
        else
          -- declarations, comments and stray `<` are skipped up to `>`
          let afterTag := rest.dropWhile (· ≠ '>')
          let rest2 := match afterTag with
            | [] => []
            | _ :: r => r
          tokenizeAux fuel rest2
    | _ =>
        let textCs := cs.takeWhile (· ≠ '<')
        let rest2 := cs.dropWhile (· ≠ '<')
        .chunk ⟨textCs⟩ :: tokenizeAux fuel rest2

/-- Tokenise a string into parser events. -/
def tokenize (s : String) : List HtmlEvent :=
  tokenizeAux (s.data.length + 1) s.data

/-- `VOID_ELEMENTS` of `_HTMLStructureValidator`. -/
def VOID_ELEMENTS : List String :=
  ["area", "base", "br", "col", "embed", "hr", "img", "input", "link",
   "meta", "param", "source", "track", "wbr"]

/-- Validator state: the stack of open tag names and the errors reported so
far.  The Python list's `append`/`pop()` pair operating on the list tail is
embedded as `cons`/head on the front of `stack`. -/
structure VState where
  stack : List String
  errors : List String
deriving Repr, DecidableEq

/-- One `HTMLParser` event applied to the validator
(`handle_starttag`, `handle_startendtag`, `handle_endtag`; text has no
handler and is ignored). -/
def applyEvent (st : VState) : HtmlEvent → VState
  | .start tag =>
      let tagLower := pyLower tag
      if tagLower ∈ VOID_ELEMENTS then st
      else { st with stack := tagLower :: st.stack }
  | .startEnd _ => st
  | .endTag tag =>
      let tagLower := pyLower tag
      if tagLower ∈ VOID_ELEMENTS then st
      else
        match st.stack with
        | [] =>
            { st with errors := st.errors ++ ["Unexpected closing tag </" ++ tag ++ ">"] }
        | expected :: stackRest =>
            if expected ≠ tagLower then
              { stack := stackRest
                errors := st.errors ++
                  ["Mismatched closing tag </" ++ tag ++ "> expected </" ++ expected ++ ">"] }
            else { st with stack := stackRest }
  | .chunk _ => st

/-- `close()`: every still-open tag produces an "unclosed" error, in
stack-pop (LIFO) order. -/
def drainStackAux : List String → List String → List String
  | [], errors => errors
  | leftover :: rest, errors =>
      drainStackAux rest (errors ++ ["Unclosed tag <" ++ leftover ++ ">"])

/-- `close()` applied to a validator state. -/
def drainStack (st : VState) : VState :=
  { stack := [], errors := drainStackAux st.stack st.errors }

/-- Run the validator over a document: feed every event, then `close()`,
and return the collected errors (`Workflow._validate_html` consults
`validator.errors`). -/
def validateHtml (s : String) : List String :=
  (drainStack ((tokenize s).foldl applyEvent { stack := [], errors := [] })).errors

/-! ## Generic custom-field value extraction
(`Workflow._extract_field_values`, workflow.py:693-713) -/

/-- The contribution of one of the four lookup keys inside the dict branch
of `_extract_field_values`: the stripped value when it is a non-empty
string. -/
def fieldKeyContrib (fields : List (String × JVal)) (key : String) :
    Option String :=
  match jLookup fields key with
  | some (.str fv) => if pyStrip fv ≠ "" then some (pyStrip fv) else none
  | _ => none

mutual

/-- `Workflow._extract_field_values`.  Strings pass through `.strip()`ped
when non-empty; dicts append the stripped value of every non-empty string
among the keys `value`, `name`, `displayName`, `title` (the loop has no
`break`), then recurse into a `children` list when present; lists recurse
elementwise and finally drop falsy entries; any other value yields `[]`. -/
def extractFieldValues : JVal → List String
  | .null => []
  | .str s => if pyStrip s ≠ "" then [pyStrip s] else []
  | .obj fields =>
      (["value", "name", "displayName", "title"].filterMap (fieldKeyContrib fields)) ++
        extractChildrenValues fields
  | .arr items => (extractFieldValuesList items).filter (fun v => v ≠ "")
  | _ => []

/-- The `if "children" in value and isinstance(value["children"], list)`
branch, walked structurally over the dictionary entries (first binding
wins, as in `jLookup`). -/
def extractChildrenValues : List (String × JVal) → List String
  | [] => []
  | (k, v) :: rest =>
      if k = "children" then
        match v with
        | .arr children => extractFieldValuesList children
        | _ => []
      else extractChildrenValues rest

/-- `results.extend(self._extract_field_values(item))` over a list. -/
def extractFieldValuesList : List JVal → List String
  | [] => []
  | item :: rest => extractFieldValues item ++ extractFieldValuesList rest

end

/-- `Workflow._product_names` (workflow.py:624-627) applied to the already
fetched `customfield_10719` value: the "Unknown" sentinel lives here, at the
call site, not in the generic extractor. -/
def productNamesOf (value : JVal) : String :=
  let values := extractFieldValues value
  if values ≠ [] then String.intercalate ", " values else "Unknown"

/-- `Workflow._product_names` on a whole issue. -/
def productNames (issue : JVal) : String :=
  productNamesOf ((jGetOr issue "fields" (.obj [])).getD "customfield_10719" .null)

/-- `Workflow._customer_names` on a whole issue (workflow.py:629-632). -/
def customerNames (issue : JVal) : String :=
  productNamesOf ((jGetOr issue "fields" (.obj [])).getD "customfield_23301" .null)

/-! ## Node-tree (ADF) text extraction

Two distinct implementations exist in the sources:
`Workflow._extract_adf_text` (workflow.py:658-680) handles `hardBreak`
nodes, while `DefaultIssueContentProvider._extract_adf_text`
(issue_content.py:177-199) has no `hardBreak` case, so a `hardBreak` falls
into the generic recurse-into-content branch and emits nothing.
`elem.get("content", []) or []` is embedded as "recurse when `content` is a
list, else nothing" (in the source a truthy string or dict `content` would
iterate into elements that the walk ignores; a truthy number would raise —
none of these occur in node-trees, whose `content` is always a list). -/

/-- The node type of an element (`elem.get("type")`), when it is a string. -/
def adfType (fields : List (String × JVal)) : Option String :=
  match jLookup fields "type" with
  | some (.str t) => some t
  | _ => none

mutual

/-- `Workflow._extract_adf_text`'s `walk`, returning the `parts` list. -/
def adfPartsWF : JVal → List String
  | .obj fields =>
      if adfType fields = some "text" then
        match jLookup fields "text" with
        | some (.str t) => if t ≠ "" then [t] else []
        | _ => []
      else if adfType fields = some "hardBreak" then ["\n"]
      else
        adfContentWF fields ++
          (if adfType fields = some "paragraph" ∨ adfType fields = some "heading" ∨
              adfType fields = some "listItem" then ["\n"] else [])
  | .arr items => adfPartsWFList items
  | _ => []

/-- Recursion into `elem.get("content", []) or []`, walked structurally. -/
def adfContentWF : List (String × JVal) → List String
  | [] => []
  | (k, v) :: rest =>
      if k = "content" then
        match v with
        | .arr children => adfPartsWFList children
        | _ => []
      else adfContentWF rest

/-- `for child in ...: walk(child)` over a list. -/
def adfPartsWFList : List JVal → List String
  | [] => []
  | item :: rest => adfPartsWF item ++ adfPartsWFList rest

end

/-- `Workflow._extract_adf_text` (workflow.py:658-680):
`"".join(parts).strip()`. -/
def extractAdfTextWF (node : JVal) : String :=
  pyStrip (String.join (adfPartsWF node))

mutual

/-- `DefaultIssueContentProvider._extract_adf_text`'s `walk`
(issue_content.py:181-195): note the absence of a `hardBreak` case. -/
def adfPartsIC : JVal → List String
  | .obj fields =>
      if adfType fields = some "text" then
        match jLookup fields "text" with
        | some (.str t) => if t ≠ "" then [t] else []
        | _ => []
      else
        adfContentIC fields ++
          (if adfType fields = some "paragraph" ∨ adfType fields = some "heading" ∨
              adfType fields = some "listItem" then ["\n"] else [])
  | .arr items => adfPartsICList items
  | _ => []

/-- Recursion into `element.get("content", []) or []`, walked structurally. -/
def adfContentIC : List (String × JVal) → List String
  | [] => []
  | (k, v) :: rest =>
      if k = "content" then
        match v with
        | .arr children => adfPartsICList children
        | _ => []
      else adfContentIC rest

/-- `for child in element: walk(child, parent_type)` over a list. -/
def adfPartsICList : List JVal → List String
  | [] => []
  | item :: rest => adfPartsIC item ++ adfPartsICList rest

end

/-! ## Python `str()`/`repr()` of embedded values -/

/-- The apostrophe character, written via its code point. -/
def aposChar : Char := Char.ofNat 39

/-- Escapes applied inside a Python string repr (backslash and control
characters; quote characters beyond those our inputs carry are not
escaped). -/
def pyReprEscape (quote : Char) (c : Char) : List Char :=
  if c = '\\' then ['\\', '\\']
  else if c = '\n' then ['\\', 'n']
  else if c = '\r' then ['\\', 'r']
  else if c = '\t' then ['\\', 't']
  else if c = quote then ['\\', c]
  else [c]

/-- Python `repr` of a string: single quotes, switching to double quotes
when the text contains an apostrophe but no double quote. -/
def pyReprStr (s : String) : String :=
  let quote :=
    if s.data.contains aposChar ∧ ¬ s.data.contains '"' then '"' else aposChar
  ⟨quote :: (s.data.foldr (fun c acc => pyReprEscape quote c ++ acc) [quote])⟩

mutual

/-- Python `repr` of an embedded value (used for values nested inside
containers, and for `str()` of non-string values). -/
def pyRepr : JVal → String
  | .null => "None"
  | .bool true => "True"
  | .bool false => "False"
  | .int n => toString n
  | .str s => pyReprStr s
  | .arr items => "[" ++ String.intercalate ", " (pyReprList items) ++ "]"
  | .obj fields => "\x7b" ++ String.intercalate ", " (pyReprFields fields) ++ "\x7d"

/-- `repr` of each list element. -/
def pyReprList : List JVal → List String
  | [] => []
  | item :: rest => pyRepr item :: pyReprList rest

/-- `repr` of each dictionary entry as `key: value`. -/
def pyReprFields : List (String × JVal) → List String
  | [] => []
  | (k, v) :: rest => (pyReprStr k ++ ": " ++ pyRepr v) :: pyReprFields rest

end

/-- Python `str()` of an embedded value (identity on strings, `repr`-like on
containers, `None`/`True`/`False` keywords). -/
def pyStr : JVal → String
  | .str s => s
  | v => pyRepr v

/-! ## Tag stripping and entity decoding
(model of `BeautifulSoup(value, "html.parser").get_text("\n", strip=True)`,
used by `DefaultIssueContentProvider._clean_html` and
`Workflow._clean_text`)

The parser decodes character references inside text and `get_text` joins
the stripped text nodes (the maximal runs between tags) with the separator,
skipping whitespace-only nodes.  The entity table below covers the named
and numeric references the pipeline's data can carry; other ampersands pass
through literally, as in the lenient `html.parser`. -/

/-- Decode leading character references (`&amp;`, `&lt;`, `&gt;`, `&quot;`,
`&#39;`, `&#x27;`, `&apos;`, `&nbsp;`). -/
def decodeEntitiesAux : Nat → List Char → List Char
  | 0, cs => cs
  | _, [] => []
  | fuel + 1, cs =>
    match cs with
    | '&' :: rest =>
        if "amp;".data.isPrefixOf rest then '&' :: decodeEntitiesAux fuel (rest.drop 4)
        else if "lt;".data.isPrefixOf rest then '<' :: decodeEntitiesAux fuel (rest.drop 3)
        else if "gt;".data.isPrefixOf rest then '>' :: decodeEntitiesAux fuel (rest.drop 3)
        else if "quot;".data.isPrefixOf rest then '"' :: decodeEntitiesAux fuel (rest.drop 5)
        else if "#39;".data.isPrefixOf rest then aposChar :: decodeEntitiesAux fuel (rest.drop 4)
        else if "#x27;".data.isPrefixOf rest then aposChar :: decodeEntitiesAux fuel (rest.drop 5)
        else if "apos;".data.isPrefixOf rest then aposChar :: decodeEntitiesAux fuel (rest.drop 5)
        else if "nbsp;".data.isPrefixOf rest then
          Char.ofNat 160 :: decodeEntitiesAux fuel (rest.drop 5)
        else '&' :: decodeEntitiesAux fuel rest
    | c :: rest => c :: decodeEntitiesAux fuel rest
    | [] => []

/-- Decode the character references of a text run. -/
def decodeEntities (cs : List Char) : List Char :=
  decodeEntitiesAux cs.length cs

/-- The stripped text nodes of a markup string, in document order. -/
def soupTextSegmentsAux : Nat → List Char → List String
  | 0, _ => []
  | _, [] => []
  | fuel + 1, cs =>
    match cs with
    | '<' :: rest =>
        let (_, rest2) := scanTagEnd rest false
        soupTextSegmentsAux fuel rest2
    | _ =>
        let textCs := cs.takeWhile (· ≠ '<')
        let rest2 := cs.dropWhile (· ≠ '<')
        let seg := pyStripList (decodeEntities textCs)
        (if seg.isEmpty then [] else [String.mk seg]) ++ soupTextSegmentsAux fuel rest2

/-- `BeautifulSoup(s, "html.parser").get_text("\n", strip=True)`. -/
def soupGetText (s : String) : String :=
  String.intercalate "\n" (soupTextSegmentsAux (s.data.length + 1) s.data)

/-! ## Mention-token handling -/

/-- The character class `[\w@.\-]` of the mention pattern in
`DefaultIssueContentProvider._replace_mentions` (`\w` in its ASCII range,
which is all the identifiers carry). -/
def mentionWordChar (c : Char) : Bool :=
  c.isAlpha || c.isDigit || c = '_' || c = '@' || c = '.' || c = '-'

/-- Mention caches map lower-cased identifiers to display names
(`self._mention_cache`); Python dictionary insertion overwrites the
existing binding for a key. -/
def cacheInsert : List (String × String) → String → String → List (String × String)
  | [], k, v => [(k, v)]
  | (k0, v0) :: rest, k, v =>
      if k0 = k then (k0, v) :: rest else (k0, v0) :: cacheInsert rest k v

/-- Cache lookup (`cache.get(identifier.lower())`). -/
def cacheGet : List (String × String) → String → Option String
  | [], _ => none
  | (k0, v0) :: rest, k => if k0 = k then some v0 else cacheGet rest k

/-- Match the tail of a mention token starting after `[~` (and after any
consumed `accountid:` prefix): a non-empty run of `mentionWordChar`s
followed immediately by `]`.  Returns the identifier and what follows the
closing bracket.  Mirrors the regex `[\w@.\-]+\]`: no backtracking helps
because the class excludes `]`. -/
def matchMentionIdent (body : List Char) : Option (List Char × List Char) :=
  let ident := body.takeWhile mentionWordChar
  match ident, body.drop ident.length with
  | [], _ => none
  | _, ']' :: rest2 => some (ident, rest2)
  | _, _ => none

/-- `DefaultIssueContentProvider._replace_mentions` (issue_content.py:147-158):
`re.sub(r"\[~(?:accountid:)?(?P<identifier>[\w@\.\-]+)\]", repl, text)`
where `repl` looks the identifier up (lower-cased) in the mention cache and
falls back to the bare identifier.  The optional `accountid:` group is
greedy with backtracking, exactly as in the regex engine. -/
def replaceMentionsAux (cache : List (String × String)) : Nat → List Char → List Char
  | 0, cs => cs
  | _, [] => []
  | fuel + 1, cs =>
    match cs with
    | '[' :: '~' :: rest =>
        let attempt :=
          match (if "accountid:".data.isPrefixOf rest then
              matchMentionIdent (rest.drop 10) else none) with
          | some r => some r
          | none => matchMentionIdent rest
        (match attempt with
        | some (ident, rest2) =>
            let identifier : String := ⟨ident⟩
            let replacement :=
              match cacheGet cache (pyLower identifier) with
              | some display => if display ≠ "" then display else identifier
              | none => identifier
            replacement.data ++ replaceMentionsAux cache fuel rest2
        | none => '[' :: replaceMentionsAux cache fuel ('~' :: rest))
    | c :: rest => c :: replaceMentionsAux cache fuel rest
    | [] => []

/-- `_replace_mentions` on a string. -/
def replaceMentions (cache : List (String × String)) (text : String) : String :=
  ⟨replaceMentionsAux cache text.data.length text.data⟩

/-- Match the tail of a workflow-style mention token after `[~` (and after
any consumed `accountid:` prefix): the class here is `[^\]]+` (any non-`]`
run). -/
def matchBareIdent (body : List Char) : Option (List Char × List Char) :=
  let ident := body.takeWhile (· ≠ ']')
  match ident, body.drop ident.length with
  | [], _ => none
  | _, ']' :: rest2 => some (ident, rest2)
  | _, _ => none

/-- `Workflow._clean_text`'s mention stripping (workflow.py:655):
`re.sub(r"\[~(?:accountid:)?([^\]]+)\]", r"\1", text)`. -/
def stripMentionTokensAux : Nat → List Char → List Char
  | 0, cs => cs
  | _, [] => []
  | fuel + 1, cs =>
    match cs with
    | '[' :: '~' :: rest =>
        let attempt :=
          match (if "accountid:".data.isPrefixOf rest then
              matchBareIdent (rest.drop 10) else none) with
          | some r => some r
          | none => matchBareIdent rest
        (match attempt with
        | some (ident, rest2) => ident ++ stripMentionTokensAux fuel rest2
        | none => '[' :: stripMentionTokensAux fuel ('~' :: rest))
    | c :: rest => c :: stripMentionTokensAux fuel rest
    | [] => []

/-- The workflow mention substitution on a string. -/
def stripMentionTokens (text : String) : String :=
  ⟨stripMentionTokensAux text.data.length text.data⟩

/-! ## The two text cleaners -/

/-- `DefaultIssueContentProvider._clean_html` (issue_content.py:79-87):
falsy values become `""`; non-strings go through `str()`; tags are
stripped via `get_text("\n", strip=True)`; mention tokens are resolved
against the provider's cache; carriage returns are removed. -/
def cleanHtml (cache : List (String × String)) (value : JVal) : String :=
  if ¬ value.truthy then ""
  else
    let sval := pyStr value
    let text := soupGetText sval
    let text := replaceMentions cache text
    ⟨text.data.filter (· ≠ '\r')⟩

/-- `Workflow._clean_text` (workflow.py:649-656): falsy values become `""`;
non-strings go through `str()`; tags are stripped; mention tokens collapse
to their identifier text; the result is stripped. -/
def cleanText (value : JVal) : String :=
  if ¬ value.truthy then ""
  else
    let sval := pyStr value
    let text := soupGetText sval
    pyStrip (stripMentionTokens text)

/-- `DefaultIssueContentProvider._extract_adf_text` (issue_content.py:177-199):
`joined = "".join(parts).strip()`, then `self._clean_html(joined)` when the
joined text is non-empty, else `""`. -/
def extractAdfTextIC (cache : List (String × String)) (node : JVal) : String :=
  let joined := pyStrip (String.join (adfPartsIC node))
  if joined ≠ "" then cleanHtml cache (.str joined) else ""

/-! ## Comment body extraction (claims C5) -/

/-- `DefaultIssueContentProvider._extract_comment_body`
(issue_content.py:160-175).  Note the order: a string body first, then the
node-tree traversal of a dict body, then the `renderedBody` string, then a
last-resort `_clean_html(body)` (which for a dict body renders its Python
`repr`). -/
def extractCommentBody (cache : List (String × String)) (comment : JVal) : String :=
  let body := comment.getD "body" .null
  let fromStr :=
    match body with
    | .str s =>
        let cleaned := cleanHtml cache (.str s)
        if cleaned ≠ "" then some cleaned else none
    | _ => none
  match fromStr with
  | some t => t
  | none =>
    let fromDict :=
      match body with
      | .obj _ =>
          let rendered := extractAdfTextIC cache body
          if rendered ≠ "" then some rendered else none
      | _ => none
    match fromDict with
    | some t => t
    | none =>
      let fromRendered :=
        match comment.getD "renderedBody" .null with
        | .str s =>
            let rendered := cleanHtml cache (.str s)
            if rendered ≠ "" then some rendered else none
        | _ => none
      match fromRendered with
      | some t => t
      | none => cleanHtml cache body

/-- `Workflow._comment_text` (workflow.py:638-647): a truthy `renderedBody`
wins outright (even if it cleans to empty text); otherwise a string body is
cleaned; otherwise a dict body goes through the workflow node-tree walk;
otherwise `""`. -/
def commentText (comment : JVal) : String :=
  let rendered := comment.getD "renderedBody" .null
  if rendered.truthy then cleanText rendered
  else
    match comment.getD "body" .null with
    | .str s => cleanText (.str s)
    | .obj fields => cleanText (.str (extractAdfTextWF (.obj fields)))
    | _ => ""

/-! ## Timestamp parsing
(`Workflow._parse_comment_datetime`, workflow.py:682-691, and
`DefaultIssueContentProvider._format_timestamp`, issue_content.py:89-103)

Both try `datetime.strptime` with `"%Y-%m-%dT%H:%M:%S.%f%z"` and then
`"%Y-%m-%dT%H:%M:%S%z"`, treating `ValueError` as failure.  Aware datetimes
are embedded as UTC microseconds since the epoch, which `datetime`'s
comparison and `astimezone` semantics reduce to.  The field parsers mirror
CPython's `_strptime` regular expressions (one-or-two digit fields with the
documented alternations, four-digit years, 1-6 digit fractions, `±HHMM`,
`±HH:MM` or `Z` offsets); the final constructor check rejects what
`datetime(...)` would (day beyond month length, leap seconds, offsets not
strictly within 24 hours). -/

/-- Decimal digit value. -/
def digitVal (c : Char) : Option Nat :=
  if c.isDigit then some (c.toNat - '0'.toNat) else none

/-- Exactly four digits (`%Y`). -/
def parse4Digits : List Char → Option (Nat × List Char)
  | a :: b :: c :: d :: rest =>
      match digitVal a, digitVal b, digitVal c, digitVal d with
      | some da, some db, some dc, some dd =>
          some (1000 * da + 100 * db + 10 * dc + dd, rest)
      | _, _, _, _ => none
  | _ => none

/-- Exactly two digits. -/
def parse2Digits : List Char → Option (Nat × List Char)
  | a :: b :: rest =>
      match digitVal a, digitVal b with
      | some da, some db => some (10 * da + db, rest)
      | _, _ => none
  | _ => none

/-- A one-or-two digit field following CPython's `_strptime` alternation
order: the two-digit alternatives are tried first (`accept2`), then the
one-digit alternative (`accept1`); a rejected two-digit value falls back to
consuming a single digit (whose successor character, a digit, then fails
the following literal, exactly as the regex would). -/
def parseNum2or1 (accept2 accept1 : Nat → Bool) :
    List Char → Option (Nat × List Char)
  | a :: b :: rest =>
      match digitVal a, digitVal b with
      | some da, some db =>
          let v := 10 * da + db
          if accept2 v then some (v, rest)
          else if accept1 da then some (da, b :: rest)
          else none
      | some da, _ => if accept1 da then some (da, b :: rest) else none
      | _, _ => none
  | [a] =>
      match digitVal a with
      | some da => if accept1 da then some (da, []) else none
      | _ => none
  | [] => none

/-- A literal character. -/
def parseLit (c : Char) : List Char → Option (List Char)
  | x :: rest => if x = c then some rest else none
  | [] => none

/-- `%f`: one to six digits, scaled to microseconds. -/
def parseFrac (cs : List Char) : Option (Nat × List Char) :=
  let digits := (cs.takeWhile Char.isDigit).take 6
  if digits.isEmpty then none
  else
    let value := digits.foldl (fun acc c => acc * 10 + (c.toNat - '0'.toNat)) 0
    some (value * 10 ^ (6 - digits.length), cs.drop digits.length)

/-- `%z`: `Z`, or `±HHMM` / `±HH:MM` with minutes `00`-`59` (the rare
trailing seconds of an offset are not used by the issue tracker's
timestamps).  Returns the offset in seconds. -/
def parseTzOffset (cs : List Char) : Option (Int × List Char) :=
  match cs with
  | 'Z' :: rest => some (0, rest)
  | sign :: rest =>
      if sign = '+' ∨ sign = '-' then
        match parse2Digits rest with
        | some (hh, rest2) =>
            let rest3 := match rest2 with
              | ':' :: r => r
              | r => r
            match parse2Digits rest3 with
            | some (mm, rest4) =>
                if mm ≤ 59 then
                  let secs : Int := (hh * 3600 + mm * 60 : Nat)
                  some (if sign = '-' then -secs else secs, rest4)
                else none
            | none => none
        | none => none
      else none
  | [] => none

/-- Number of days in a month of the proleptic Gregorian calendar. -/
def daysInMonth (y m : Nat) : Nat :=
  if m = 2 then
    if y % 4 = 0 ∧ (y % 100 ≠ 0 ∨ y % 400 = 0) then 29 else 28
  else if m = 4 ∨ m = 6 ∨ m = 9 ∨ m = 11 then 30
  else 31

/-- Days since 1970-01-01 of a civil date (valid for year ≥ 1; the shifted
year keeps every division non-negative, so the rounding mode is
irrelevant). -/
def daysFromCivil (y m d : Nat) : Int :=
  let yAdj : Int := (y : Int) - (if m ≤ 2 then 1 else 0)
  let era : Int := yAdj / 400
  let yoe : Int := yAdj - era * 400
  let mp : Int := if m > 2 then (m : Int) - 3 else (m : Int) + 9
  let doy : Int := (153 * mp + 2) / 5 + (d : Int) - 1
  let doe : Int := yoe * 365 + yoe / 4 - yoe / 100 + doy
  era * 146097 + doe - 719468

/-- UTC microseconds since the epoch of an aware civil timestamp. -/
def utcMicrosOf (y m d hh mm ss : Nat) (frac : Nat) (offsetSecs : Int) : Int :=
  (daysFromCivil y m d * 86400 + (hh * 3600 + mm * 60 + ss : Nat)) * 1000000
    + (frac : Nat) - offsetSecs * 1000000

/-- `datetime.strptime(s, "%Y-%m-%dT%H:%M:%S[.%f]%z")` followed by the
`datetime` constructor's validation, as UTC microseconds.  `none` models
the `ValueError` the callers catch. -/
def strptimeIsoMicros (withFrac : Bool) (s : String) : Option Int :=
  match parse4Digits s.data with
  | none => none
  | some (y, r1) =>
    match parseLit '-' r1 with
    | none => none
    | some r2 =>
      match parseNum2or1 (fun v => 1 ≤ v ∧ v ≤ 12) (fun v => 1 ≤ v) r2 with
      | none => none
      | some (m, r3) =>
        match parseLit '-' r3 with
        | none => none
        | some r4 =>
          match parseNum2or1 (fun v => 1 ≤ v ∧ v ≤ 31) (fun v => 1 ≤ v) r4 with
          | none => none
          | some (d, r5) =>
            match parseLit 'T' r5 with
            | none => none
            | some r6 =>
              match parseNum2or1 (fun v => v ≤ 23) (fun _ => true) r6 with
              | none => none
              | some (hh, r7) =>
                match parseLit ':' r7 with
                | none => none
                | some r8 =>
                  match parseNum2or1 (fun v => v ≤ 59) (fun _ => true) r8 with
                  | none => none
                  | some (mm, r9) =>
                    match parseLit ':' r9 with
                    | none => none
                    | some r10 =>
                      match parseNum2or1 (fun v => v ≤ 61) (fun _ => true) r10 with
                      | none => none
                      | some (ss, r11) =>
                        let fracStep : Option (Nat × List Char) :=
                          if withFrac then
                            match parseLit '.' r11 with
                            | none => none
                            | some r12 => parseFrac r12
                          else some (0, r11)
                        match fracStep with
                        | none => none
                        | some (frac, r13) =>
                          match parseTzOffset r13 with
                          | none => none
                          | some (offsetSecs, r14) =>
                            -- strptime requires the whole string to match;
                            -- datetime(...) then validates the fields
                            if r14 = [] ∧ 1 ≤ y ∧ y ≤ 9999 ∧ d ≤ daysInMonth y m ∧
                                ss ≤ 59 ∧ offsetSecs.natAbs < 24 * 3600 then
                              some (utcMicrosOf y m d hh mm ss frac offsetSecs)
                            else none

/-- `Workflow._parse_comment_datetime` (workflow.py:682-691): falsy input
gives `None`; then the two formats are tried in order.  (A truthy non-string
would raise `TypeError` inside `strptime`, which the issue data never
produces; it is embedded as `none`.) -/
def parseCommentDatetime (value : JVal) : Option Int :=
  match value with
  | .str s =>
      if s = "" then none
      else
        match strptimeIsoMicros true s with
        | some t => some t
        | none => strptimeIsoMicros false s
  | _ => none

/-! ## Pacific-time rendering
(`astimezone(ZoneInfo("America/Los_Angeles"))` followed by
`strftime("%Y-%m-%d %H:%M %Z")`).  The `America/Los_Angeles` rules for the
era the pipeline's data lives in (2007 onwards) are UTC-8 standard time,
with daylight saving (UTC-7) from 02:00 local on the second Sunday of March
to 02:00 local on the first Sunday of November. -/

/-- Civil date (year, month, day) of a day count relative to 1970-01-01. -/
def civilFromDays (z0 : Int) : Int × Nat × Nat :=
  let z := z0 + 719468
  let era := Int.ediv z 146097
  let doe := z - era * 146097
  let yoe := (doe - doe / 1460 + doe / 36524 - doe / 146096) / 365
  let y := yoe + era * 400
  let doy := doe - (365 * yoe + yoe / 4 - yoe / 100)
  let mp := (5 * doy + 2) / 153
  let d := doy - (153 * mp + 2) / 5 + 1
  let m := if mp < 10 then mp + 3 else mp - 9
  ((if m ≤ 2 then y + 1 else y), m.toNat, d.toNat)

/-- Day of the week of a day count (0 = Sunday; 1970-01-01 was a
Thursday). -/
def dayOfWeek (days : Int) : Int :=
  Int.emod (Int.emod (days + 4) 7 + 7) 7

/-- Day of month of the second Sunday of March. -/
def secondSundayOfMarch (y : Nat) : Nat :=
  (8 + Int.emod (7 - dayOfWeek (daysFromCivil y 3 8)) 7).toNat

/-- Day of month of the first Sunday of November. -/
def firstSundayOfNovember (y : Nat) : Nat :=
  (1 + Int.emod (7 - dayOfWeek (daysFromCivil y 11 1)) 7).toNat

/-- Does US Pacific daylight saving apply at a UTC instant (microseconds)? -/
def pacificIsDst (utcMicros : Int) : Bool :=
  let stdDays := Int.ediv (utcMicros - 8 * 3600 * 1000000) 86400000000
  let y := (civilFromDays stdDays).1.toNat
  let dstStart := (daysFromCivil y 3 (secondSundayOfMarch y) * 86400 + 10 * 3600) * 1000000
  let dstStop := (daysFromCivil y 11 (firstSundayOfNovember y) * 86400 + 9 * 3600) * 1000000
  dstStart ≤ utcMicros ∧ utcMicros < dstStop

/-- Left-pad a numeral with zeroes. -/
def padNum (width n : Nat) : String :=
  let digits := toString n
  ⟨List.replicate (width - digits.data.length) '0'⟩ ++ digits

/-- `strftime("%Y-%m-%d %H:%M %Z")` of a UTC instant rendered in
`America/Los_Angeles`. -/
def pacificFormat (utcMicros : Int) : String :=
  let isDst := pacificIsDst utcMicros
  let offsetHours : Int := if isDst then 7 else 8
  let localMicros := utcMicros - offsetHours * 3600 * 1000000
  let days := Int.ediv localMicros 86400000000
  let rem := Int.emod localMicros 86400000000
  let (y, m, d) := civilFromDays days
  let secondsOfDay := (Int.ediv rem 1000000).toNat
  padNum 4 y.toNat ++ "-" ++ padNum 2 m ++ "-" ++ padNum 2 d ++ " " ++
    padNum 2 (secondsOfDay / 3600) ++ ":" ++ padNum 2 (secondsOfDay % 3600 / 60) ++
    " " ++ (if isDst then "PDT" else "PST")

/-- `DefaultIssueContentProvider._format_timestamp` (issue_content.py:89-103):
falsy values give `"Unknown time"`; a string is tried against the two
formats and passed through verbatim when neither parses; a parsed value is
rendered in Pacific time.  (Truthy non-strings would raise `TypeError`
inside `strptime`; they never occur and are embedded as verbatim
passthrough.) -/
def formatTimestamp (value : JVal) : String :=
  if ¬ value.truthy then "Unknown time"
  else
    match value with
    | .str s =>
        (match strptimeIsoMicros true s with
         | some t => pacificFormat t
         | none =>
           match strptimeIsoMicros false s with
           | some t => pacificFormat t
           | none => s)
    | v => pyStr v

/-! ## Defaults (`defaults.py`) -/

/-- `IGNORE_COMMENTS_FROM` (defaults.py:40-43): shipped empty. -/
def IGNORE_COMMENTS_FROM : List String := []

/-- `LABEL_STATUS_MAP` (defaults.py:72): shipped empty. -/
def LABEL_STATUS_MAP : List (String × String) := []

/-- `INFO_HEADER` (defaults.py:58-61). -/
def INFO_HEADER : String :=
  "Verify these summaries before sharing outside the team." ++
  " Update the filter YAML prompt if focus areas change."

/-! ## Recent-comment collection (`Workflow._collect_recent_comments`,
workflow.py:458-488, claim C9) -/

/-- `{value.lower() for value in IGNORE_COMMENTS_FROM}`. -/
def normalizedIgnore : List String := IGNORE_COMMENTS_FROM.map pyLower

/-- The `any(...)`-over-author-identifiers test inside
`_collect_recent_comments`: an identifier is considered when truthy, and
matches when it is a string whose lower-casing is in the normalized ignore
set. -/
def commentIgnoredWF (comment : JVal) : Bool :=
  let authorInfo := jGetOr comment "author" (.obj [])
  [authorInfo.get "accountId", authorInfo.get "name", authorInfo.get "key",
   authorInfo.get "emailAddress"].any (fun idv =>
    match idv with
    | some (.str s) => s ≠ "" && pyLower s ∈ normalizedIgnore
    | _ => false)

/-- The comment list of an issue:
`((issue.get("fields") or {}).get("comment") or {}).get("comments", []) or []`
(a truthy non-list would fail iteration in the source; the issue data always
carries a list). -/
def commentsOfIssue (issue : JVal) : List JVal :=
  let fields := jGetOr issue "fields" (.obj [])
  let commentField := jGetOr fields "comment" (.obj [])
  match commentField.getD "comments" (.arr []) with
  | .arr cs => cs
  | _ => []

/-- The per-comment step of the `for comment in comments` loop. -/
def recentCommentStep (cutoff : Int) (acc : List (JVal × Int)) (comment : JVal) :
    List (JVal × Int) :=
  if commentIgnoredWF comment then acc
  else
    match parseCommentDatetime (comment.getD "created" .null) with
    | none => acc
    | some createdDt => if cutoff ≤ createdDt then acc ++ [(comment, createdDt)] else acc

/-- `Workflow._collect_recent_comments` (workflow.py:458-488), with the
`datetime.now(timezone.utc)` read passed explicitly as `nowUtcMicros`:
`cutoff = now - timedelta(hours=lookback)`; comments from ignored authors
are skipped, unparseable `created` timestamps are dropped, and a comment is
retained exactly when `created_dt >= cutoff`. -/
def collectRecentComments (nowUtcMicros : Int) (lookbackHours : Int)
    (issue : JVal) : List (JVal × Int) :=
  let cutoff := nowUtcMicros - lookbackHours * 3600 * 1000000
  (commentsOfIssue issue).foldl (recentCommentStep cutoff) []

/-! ## The issue-content provider (`issue_content.py`, claim C3)

`DefaultIssueContentProvider` keeps its mention cache on `self`
(`self._mention_cache`), created on first use and never cleared; the
embedding threads that instance attribute explicitly as a value of type
`List (String × String)` passed in and returned. -/

/-- `_IGNORE_COMMENTS_NORMALIZED` (issue_content.py:13). -/
def IGNORE_COMMENTS_NORMALIZED : List String := IGNORE_COMMENTS_FROM.map pyLower

/-- `DefaultIssueContentProvider._should_ignore_comment`
(issue_content.py:105-119): vacuously false when the normalized ignore set
is empty (which `defaults.py` ships). -/
def shouldIgnoreComment (comment : JVal) : Bool :=
  if IGNORE_COMMENTS_NORMALIZED.isEmpty then false
  else
    let author := jGetOr comment "author" (.obj [])
    [author.get "accountId", author.get "name", author.get "key",
     author.get "emailAddress"].any (fun idv =>
      match idv with
      | some (.str s) => s ≠ "" && pyLower s ∈ IGNORE_COMMENTS_NORMALIZED
      | _ => false)

/-- Register one author dictionary in the mention cache: skipped unless it
is a dict with a truthy `displayName`; each truthy string among the four
identifier fields maps (lower-cased) to the display name, last writer
winning. -/
def registerAuthor (cache : List (String × String)) (author : JVal) :
    List (String × String) :=
  match author with
  | .obj afields =>
      (match jLookup afields "displayName" with
      | some (.str dn) =>
          if dn ≠ "" then
            ["accountId", "name", "key", "emailAddress"].foldl (fun cache keyField =>
              match jLookup afields keyField with
              | some (.str ident) =>
                  if ident ≠ "" then cacheInsert cache (pyLower ident) dn else cache
              | _ => cache) cache
          else cache
      | _ => cache)
  | _ => cache

/-- `DefaultIssueContentProvider._build_display_name_cache`
(issue_content.py:121-145).  The crucial state behaviour: the method reuses
`self._mention_cache` when it already exists and only ever adds to it, so
the returned cache extends the incoming one. -/
def buildDisplayNameCache (cache : List (String × String)) (issue : JVal) :
    List (String × String) :=
  let fields := jGetOr issue "fields" (.obj [])
  let comments :=
    match (jGetOr fields "comment" (.obj [])).getD "comments" (.arr []) with
    | .arr cs => cs
    | _ => []
  let authorFields :=
    [fields.getD "assignee" .null, fields.getD "reporter" .null] ++
      comments.map (fun c => c.getD "author" .null)
  authorFields.foldl registerAuthor cache

/-- Render an optional field value the way an f-string does (`None` prints
as `"None"`). -/
def pyFormatOpt : Option JVal → String
  | some v => pyStr v
  | none => "None"

/-- `.get(key, default)` rendered as display text: the default string is
used only when the key is absent (a stored `None` prints as `"None"`). -/
def getDisplayField (v : JVal) (key dflt : String) : String :=
  match v.get key with
  | some fieldVal => pyStr fieldVal
  | none => dflt

/-- `DefaultIssueContentProvider._extract_comments` (issue_content.py:57-77):
one formatted line per comment that survives the ignore filter. -/
def extractComments (cache : List (String × String)) (fields : JVal) :
    List String :=
  let commentField := jGetOr fields "comment" (.obj [])
  let commentData :=
    match commentField.getD "comments" (.arr []) with
    | .arr cs => cs
    | _ => []
  (commentData.filter (fun c => ¬ shouldIgnoreComment c)).map (fun comment =>
    let author := getDisplayField (jGetOr comment "author" (.obj [])) "displayName" "Unknown"
    let body := extractCommentBody cache comment
    let timestamp := formatTimestamp (comment.getD "created" .null)
    "- " ++ timestamp ++ " – " ++ author ++ ": " ++
      (if body ≠ "" then body else "empty comment"))

/-- `DefaultIssueContentProvider.build_issue_text` (issue_content.py:24-55),
with the instance's `_mention_cache` threaded explicitly: the method first
extends the cache from this issue's authors, then renders every field with
that extended cache.  Returns the text together with the cache the provider
instance now holds. -/
def buildIssueText (cache : List (String × String)) (issue : JVal) :
    String × List (String × String) :=
  let cache := buildDisplayNameCache cache issue
  let fields := issue.getD "fields" (.obj [])
  let summary := getDisplayField fields "summary" ""
  let description := cleanHtml cache (fields.getD "description" .null)
  let status := getDisplayField (jGetOr fields "status" (.obj [])) "name" "Unknown"
  let assignee := getDisplayField (jGetOr fields "assignee" (.obj [])) "displayName" "Unassigned"
  let reporter := getDisplayField (jGetOr fields "reporter" (.obj [])) "displayName" "Unknown"
  let created := formatTimestamp (fields.getD "created" .null)
  let updated := formatTimestamp (fields.getD "updated" .null)
  let comments := extractComments cache fields
  let parts :=
    ["Issue Key: " ++ pyFormatOpt (issue.get "key"),
     "Summary: " ++ summary,
     "Status: " ++ status,
     "Assignee: " ++ assignee,
     "Reporter: " ++ reporter,
     "Created: " ++ created,
     "Updated: " ++ updated,
     "",
     "Description:",
     (if description ≠ "" then description else "<no description>")] ++
    (if comments ≠ [] then ["", "Comments:"] ++ comments else [])
  (String.intercalate "\n" parts, cache)

/-! ## Storage-format rendering (`renderers.py`, claim C2)

`build_confluence_storage` reads the clock itself
(`datetime.now(ZoneInfo("America/Los_Angeles")).strftime(...)` at
renderers.py:53); that read is passed explicitly as `nowTimestamp`.  The
`markdown.markdown(…, extensions=["tables", "fenced_code"])` call into the
external markdown library (`_render_markdown`) is passed as the function
parameter `renderMarkdown`.  `_assemble_info_panel_body` builds a `<div>`
via BeautifulSoup and re-serialises it; on the well-formed constant
fragments it receives, that parse/serialise round trip is the plain
concatenation written below. -/

/-- `html.escape(s)` (with its default `quote=True`): the sequential
`str.replace` calls amount to this per-character map. -/
def escapeHtmlChar (c : Char) : List Char :=
  if c = '&' then "&amp;".data
  else if c = '<' then "&lt;".data
  else if c = '>' then "&gt;".data
  else if c = '"' then "&quot;".data
  else if c = aposChar then "&#x27;".data
  else [c]

/-- `html.escape`. -/
def escapeHtml (s : String) : String :=
  ⟨(s.data.map escapeHtmlChar).flatten⟩

/-- Upper-case hex digit. -/
def hexDigitChar (n : Nat) : Char :=
  if n < 10 then Char.ofNat ('0'.toNat + n) else Char.ofNat ('A'.toNat + n - 10)

/-- `urllib.parse.quote_plus` on one character (ASCII range; the filter
identifiers quoted by the renderer are numeric strings). -/
def quotePlusChar (c : Char) : List Char :=
  if c.isAlpha || c.isDigit || c = '_' || c = '.' || c = '-' || c = '~' then [c]
  else if c = ' ' then ['+']
  else ['%', hexDigitChar (c.toNat / 16 % 16), hexDigitChar (c.toNat % 16)]

/-- `urllib.parse.quote_plus`. -/
def quotePlus (s : String) : String :=
  ⟨(s.data.map quotePlusChar).flatten⟩

/-- `_DONE_STATUS_NAMES` (renderers.py:15). -/
def DONE_STATUS_NAMES : List String := ["done", "closed", "resolved", "cancelled"]

/-- One row of the `issue_blocks` iterable consumed by
`build_confluence_storage` (the 14-tuple documented at renderers.py:49-51). -/
structure IssueBlock where
  issueKey : String
  summary : String
  assigneeName : String
  assigneeUrl : Option String
  reporterName : String
  priorityName : String
  labels : List String
  components : List String
  status : String
  isImpediment : Bool
  product : String
  customer : String
  llmText : String
  shouldPanel : Bool
deriving Repr, DecidableEq

/-- Python `x or y` on display strings. -/
def strOr (x y : String) : String := if x ≠ "" then x else y

/-- `_format_status_value` (renderers.py:189-204). -/
def formatStatusValue (status : String) : String :=
  if status = "" then "Unknown"
  else
    let normalized := pyStrip status
    if normalized = "" then "Unknown"
    else if pyLower normalized ∈ DONE_STATUS_NAMES then
      "<ac:structured-macro ac:name=\"status\">" ++
        "<ac:parameter ac:name=\"colour\">Green</ac:parameter>" ++
        "<ac:parameter ac:name=\"title\">" ++ escapeHtml normalized ++ "</ac:parameter>" ++
        "<ac:parameter ac:name=\"subtle\">false</ac:parameter>" ++
        "</ac:structured-macro>"
    else escapeHtml normalized

/-- `_format_labels` (renderers.py:170-186), against the (empty) shipped
`LABEL_STATUS_MAP`. -/
def formatLabels (labels : List String) : String :=
  if labels = [] then "None"
  else
    String.intercalate ", " (labels.map (fun label =>
      match cacheGet LABEL_STATUS_MAP label with
      | some color =>
          if color ≠ "" then
            "<ac:structured-macro ac:name=\"status\">" ++
              "<ac:parameter ac:name=\"colour\">" ++ escapeHtml color ++ "</ac:parameter>" ++
              "<ac:parameter ac:name=\"title\">" ++ escapeHtml label ++ "</ac:parameter>" ++
              "<ac:parameter ac:name=\"subtle\">false</ac:parameter>" ++
              "</ac:structured-macro>"
          else escapeHtml label
      | none => escapeHtml label))

/-- `_impediment_badge` (renderers.py:160-167), trailing space included. -/
def impedimentBadge : String :=
  "<ac:structured-macro ac:name=\"status\">" ++
    "<ac:parameter ac:name=\"colour\">red</ac:parameter>" ++
    "<ac:parameter ac:name=\"title\">IMPEDIMENT</ac:parameter>" ++
    "<ac:parameter ac:name=\"subtle\">false</ac:parameter>" ++
    "</ac:structured-macro> "

/-- `_build_info_panel` (renderers.py:147-157). -/
def buildInfoPanel (text : String) : String :=
  if text = "" then ""
  else
    "<ac:structured-macro ac:name=\"info\">" ++
      "<ac:parameter ac:name=\"icon\">information</ac:parameter>" ++
      "<ac:rich-text-body>" ++ text ++ "</ac:rich-text-body>" ++
      "</ac:structured-macro>"

/-- `_wrap_panel` (renderers.py:236-248). -/
def wrapPanel (bodyHtml : String) : String :=
  let bodyHtml := if bodyHtml = "" then "<p></p>" else bodyHtml
  "<ac:structured-macro ac:name=\"panel\">" ++
    "<ac:parameter ac:name=\"borderColor\">#0052CC</ac:parameter>" ++
    "<ac:parameter ac:name=\"borderStyle\">solid</ac:parameter>" ++
    "<ac:parameter ac:name=\"bgColor\">#E9F2FF</ac:parameter>" ++
    "<ac:rich-text-body>" ++ bodyHtml ++ "</ac:rich-text-body>" ++
    "</ac:structured-macro>"

/-- `_assemble_info_panel_body` (renderers.py:207-233): the BeautifulSoup
`<div>` assembly serialised. -/
def assembleInfoPanelBody (infoHtml generatedHtml filterHtml totalHtml
    guidanceHtml : String) : String :=
  "<div>" ++ infoHtml ++ "<p>" ++ generatedHtml ++ " | " ++ filterHtml ++
    " | " ++ totalHtml ++ "</p>" ++ guidanceHtml ++ "</div>"

/-- One per-issue section of the storage document (the body of the
`for ... in issue_blocks` loop, renderers.py:77-134). -/
def issueSection (renderMarkdown : String → String) (jiraBaseUrl : String)
    (block : IssueBlock) : String :=
  let url := rstripSlash jiraBaseUrl ++ "/browse/" ++ block.issueKey
  let safeKey := escapeHtml block.issueKey
  let safeSummary := escapeHtml (strOr block.summary "")
  let safeAssigneeName := escapeHtml (strOr block.assigneeName "Unassigned")
  let assigneeHtml :=
    match block.assigneeUrl with
    | some assigneeUrl =>
        if assigneeUrl ≠ "" then
          "<a href=\"" ++ escapeHtml assigneeUrl ++ "\">" ++ safeAssigneeName ++ "</a>"
        else safeAssigneeName
    | none => safeAssigneeName
  let reporterHtml := escapeHtml (strOr block.reporterName "Unknown")
  let priorityHtml := escapeHtml (strOr block.priorityName "None")
  let labelsHtml := formatLabels block.labels
  let componentsHtml :=
    if block.components ≠ [] then
      String.intercalate ", " (block.components.map escapeHtml)
    else "None"
  let issueHeading :=
    "<h3><a href=\"" ++ escapeHtml url ++ "\">" ++ safeKey ++ "</a>: " ++
      safeSummary ++ "</h3>"
  let flagHtml := if block.isImpediment then impedimentBadge else ""
  let assigneeLine :=
    "<p>" ++ flagHtml ++
      "<strong>Status:</strong> " ++ formatStatusValue block.status ++ " | " ++
      "<strong>Assignee:</strong> " ++ assigneeHtml ++ " | " ++
      "<strong>Priority:</strong> " ++ priorityHtml ++ " | " ++
      "<strong>Labels:</strong> " ++ labelsHtml ++ " | " ++
      "<strong>Components:</strong> " ++ componentsHtml ++ " | " ++
      "<strong>Reporter:</strong> " ++ reporterHtml ++ "</p>"
  let productHtml := escapeHtml (strOr block.product "Unknown")
  let customerHtml := escapeHtml (strOr block.customer "Unknown")
  let productCustomerLine :=
    "<p><strong>Product:</strong> " ++ productHtml ++ " | " ++
      "<strong>Customer:</strong> " ++ customerHtml ++ "</p>"
  let renderedBody := renderMarkdown block.llmText
  let safeBody := if block.shouldPanel then wrapPanel renderedBody else renderedBody
  issueHeading ++ assigneeLine ++ productCustomerLine ++ safeBody

/-- The constant table-of-contents directive the renderer emits
(renderers.py:58-64), with its self-closing `<ac:rich-text-body/>`. -/
def tocDirective : String :=
  "<ac:structured-macro ac:name=\"toc\">" ++
    "<ac:parameter ac:name=\"minLevel\">3</ac:parameter>" ++
    "<ac:parameter ac:name=\"maxLevel\">3</ac:parameter>" ++
    "<ac:rich-text-body/>" ++
    "</ac:structured-macro>"

/-- `build_confluence_storage` (renderers.py:17-136).  `nowTimestamp` is the
`datetime.now(...)` strftime read the source performs on entry;
`renderMarkdown` is the external markdown library call. -/
def buildConfluenceStorage (renderMarkdown : String → String)
    (jiraBaseUrl filterId filterName : String) (totalIssues : Nat)
    (issueBlocks : List IssueBlock) (nowTimestamp : String) : String :=
  let filterUrl := rstripSlash jiraBaseUrl ++ "/issues/?filter=" ++ quotePlus filterId
  let safeFilterId := escapeHtml filterId
  let safeFilterName := escapeHtml (strOr filterName "")
  let filterNameFragment :=
    if safeFilterName ≠ "" then " (" ++ safeFilterName ++ ")" else ""
  let panelBody :=
    assembleInfoPanelBody INFO_HEADER
      ("<strong>Generated:</strong> " ++ escapeHtml nowTimestamp)
      ("<strong>Filter:</strong> <a href=\"" ++ filterUrl ++ "\">" ++
        safeFilterId ++ "</a>" ++ filterNameFragment)
      ("<strong>Total issues:</strong> " ++ toString totalIssues)
      "<p>Review all generated notes for accuracy before wider sharing.</p>"
  let infoSection := buildInfoPanel panelBody
  let sections := issueBlocks.map (issueSection renderMarkdown jiraBaseUrl)
  tocDirective ++ infoSection ++ String.join sections

/-! ## The email HTML adapter (`Workflow._enhance_email_html` and helpers,
workflow.py:805-1208, claim C4)

BeautifulSoup's parsed documents are embedded as `HNode` trees (text nodes
hold entity-decoded text, `class` attributes are read as whitespace-split
token lists).  The adapter's tree mutations become rewrites; the
`replace_with` call that bs4 refuses on a parentless element becomes
`Except.error` carrying bs4's message.  The source iterates pre-collected
`find_all`/`select` lists over a mutating tree; the rewrites below process
children first, which produces the same tree on documents whose matched
elements are not nested inside one another (the pipeline's documents; and
the claim-C4 theorem below only exercises the error path, which any
processing order reaches). -/

/-- A parsed HTML node: text, or an element with attributes and children. -/
inductive HNode where
  | text (s : String) : HNode
  | elem (tag : String) (attrs : List (String × String)) (children : List HNode) : HNode
deriving Repr

/-- Attribute lookup (`element.get(name)`). -/
def getAttr (attrs : List (String × String)) (name : String) : Option String :=
  match attrs with
  | [] => none
  | (k, v) :: rest => if k = name then some v else getAttr rest name

/-- Attribute assignment (`element[name] = value`). -/
def setAttr (attrs : List (String × String)) (name value : String) :
    List (String × String) :=
  match attrs with
  | [] => [(name, value)]
  | (k, v) :: rest =>
      if k = name then (k, value) :: rest else (k, v) :: setAttr rest name value

/-- Split on runs of whitespace (how bs4 tokenises the `class` attribute). -/
def splitWsAux : List Char → List Char → List String
  | [], acc => if acc.isEmpty then [] else [⟨acc.reverse⟩]
  | c :: rest, acc =>
      if pySpace c then
        (if acc.isEmpty then [] else [(⟨acc.reverse⟩ : String)]) ++ splitWsAux rest []
      else splitWsAux rest (c :: acc)

/-- Whitespace-split of a string. -/
def splitWs (s : String) : List String := splitWsAux s.data []

/-- `element.get("class", [])` as a token list. -/
def classListOf (attrs : List (String × String)) : List String :=
  splitWs ((getAttr attrs "class").getD "")

/-- Python `str.upper()` (ASCII range). -/
def pyUpper (s : String) : String := ⟨s.data.map Char.toUpper⟩

/-- Python `str.capitalize()` (first character upper, rest lower). -/
def pyCapitalize (s : String) : String :=
  match s.data with
  | [] => ""
  | c :: rest => ⟨c.toUpper :: rest.map Char.toLower⟩

/-- Python `str.rstrip(";")`. -/
def rstripSemis (s : String) : String :=
  ⟨(s.data.reverse.dropWhile (· = ';')).reverse⟩

/-- `STATUS_NAME_HEX` (workflow.py:64-75). -/
def STATUS_NAME_HEX : List (String × String) :=
  [("red", "#FF5630"), ("yellow", "#FFAB00"), ("green", "#36B37E"),
   ("blue", "#4C9AFF"), ("grey", "#6B778C"), ("gray", "#6B778C"),
   ("purple", "#6554C0"), ("teal", "#00B8D9"), ("lime", "#A5D753"),
   ("brown", "#8C6E64")]

/-- `STATUS_CLASS_HEX` (workflow.py:77-86). -/
def STATUS_CLASS_HEX : List (String × String) :=
  [("aui-lozenge-success", "#57D9A3"), ("aui-lozenge-complete", "#4C9AFF"),
   ("aui-lozenge-current", "#FFAB00"), ("aui-lozenge-moved", "#6554C0"),
   ("aui-lozenge-error", "#FF5630"), ("aui-lozenge-removed", "#FF5630"),
   ("aui-lozenge-default", "#7A869A"), ("aui-lozenge", "#7A869A")]

/-- Runs of decimal digits, in order (`re.findall(r"\d+", s)`). -/
def digitRunsAux : Nat → List Char → List Nat
  | 0, _ => []
  | _, [] => []
  | fuel + 1, cs =>
    match cs with
    | c :: rest =>
        if c.isDigit then
          let run := cs.takeWhile Char.isDigit
          let value := run.foldl (fun acc d => acc * 10 + (d.toNat - '0'.toNat)) 0
          value :: digitRunsAux fuel (cs.drop run.length)
        else digitRunsAux fuel rest
    | [] => []

/-- `re.findall(r"\d+", s)` as numbers. -/
def digitRuns (s : String) : List Nat := digitRunsAux s.data.length s.data

/-- Two-digit upper-case hex of a byte (`f"{n:02X}"`). -/
def byteHex (n : Nat) : String :=
  ⟨[hexDigitChar (n / 16 % 16), hexDigitChar (n % 16)]⟩

/-- `Workflow._normalise_colour` (workflow.py:987-1007): named palette
colours, `#rgb`/`#rrggbb` hex (upper-cased), and `rgb(...)` strings with
components clamped to 0-255; anything else is `none`. -/
def normaliseColour (value : Option String) : Option String :=
  match value with
  | none => none
  | some v =>
      let colour := pyStrip v
      if colour = "" then none
      else
        let lower := pyLower colour
        match cacheGet STATUS_NAME_HEX lower with
        | some hex => some hex
        | none =>
          if lower.data.take 1 = ['#'] ∧ lower.data.length = 4 then
            match lower.data with
            | [_, r, g, b] => some (pyUpper ⟨['#', r, r, g, g, b, b]⟩)
            | _ => none
          else if lower.data.take 1 = ['#'] ∧ lower.data.length = 7 then
            some (pyUpper lower)
          else if "rgb".data.isPrefixOf lower.data then
            match digitRuns lower with
            | r :: g :: b :: _ =>
                some ("#" ++ byteHex (min 255 r) ++ byteHex (min 255 g) ++
                  byteHex (min 255 b))
            | _ => none
          else none

/-- The lower-cased needle matched at the start of the haystack, optionally
case-insensitively. -/
def matchesAt (caseInsensitive : Bool) (needle : List Char) (hay : List Char) : Bool :=
  if caseInsensitive then needle.isPrefixOf (hay.map Char.toLower)
  else needle.isPrefixOf hay

/-- Search for a CSS property value inside a `style` attribute
(`re.search(prop + r"\s*:\s*([^;]+)", style)`): the text after the first
occurrence of the property name, a colon (surrounding whitespace allowed),
up to the next `;`, stripped. -/
def findStylePropAux (caseInsensitive : Bool) (prop : List Char) :
    Nat → List Char → Option String
  | 0, _ => none
  | _, [] => none
  | fuel + 1, cs =>
    if matchesAt caseInsensitive prop cs then
      let afterProp := (cs.drop prop.length).dropWhile pySpace
      match afterProp with
      | ':' :: afterColon =>
          let valueCs := (afterColon.dropWhile pySpace).takeWhile (· ≠ ';')
          if valueCs.isEmpty then
            -- `[^;]+` needs at least one character
            match cs with
            | _ :: restMore => findStylePropAux caseInsensitive prop fuel restMore
            | [] => none
          else some (pyStrip ⟨valueCs⟩)
      | _ =>
          match cs with
          | _ :: restMore => findStylePropAux caseInsensitive prop fuel restMore
          | [] => none
    else
      match cs with
      | _ :: restMore => findStylePropAux caseInsensitive prop fuel restMore
      | [] => none

/-- `re.search(prop + r"\s*:\s*([^;]+)", style)` with the given casing. -/
def findStyleProp (caseInsensitive : Bool) (prop style : String) : Option String :=
  findStylePropAux caseInsensitive (pyLower prop).data style.data.length style.data

/-- `Workflow._pick_colour_from_element` (workflow.py:972-985). -/
def pickColourFromElement (attrs : List (String × String)) : Option String :=
  let fromData :=
    ["data-color", "data-bgcolor", "data-background"].foldl (fun acc attrName =>
      match acc with
      | some c => some c
      | none =>
        match getAttr attrs attrName with
        | some colour => if colour ≠ "" then some colour else none
        | none => none) none
  match fromData with
  | some c => some c
  | none =>
    let fromClass :=
      (classListOf attrs).foldl (fun acc className =>
        match acc with
        | some c => some c
        | none => cacheGet STATUS_CLASS_HEX className) none
    match fromClass with
    | some c => some c
    | none => findStyleProp false "background-color" ((getAttr attrs "style").getD "")

/-- bs4's `replace_with` message for a parentless element. -/
def bsReplaceWithMsg : String :=
  "Cannot replace one element with another when the element to be replaced" ++
    " is not part of the tree."

mutual

/-- Does a tag with this name occur at or below a node? -/
def containsTagNode (name : String) : HNode → Bool
  | .text _ => false
  | .elem tag _ children => (tag == name) || containsTag name children

/-- Does a tag with this name occur in the forest
(`soup.find(name) is not None`)? -/
def containsTag (name : String) : List HNode → Bool
  | [] => false
  | n :: rest => containsTagNode name n || containsTag name rest

end

mutual

/-- First element with the given tag name at or below a node, pre-order. -/
def findTagNode (name : String) : HNode → Option HNode
  | .text _ => none
  | .elem tag attrs children =>
      if tag = name then some (.elem tag attrs children)
      else findTagIn name children

/-- First descendant element with the given tag name, pre-order
(`tag.find(name)`). -/
def findTagIn (name : String) : List HNode → Option HNode
  | [] => none
  | n :: rest =>
      match findTagNode name n with
      | some found => some found
      | none => findTagIn name rest

end

mutual

/-- All elements with the given tag name at or below a node, pre-order. -/
def findAllTagNode (name : String) : HNode → List HNode
  | .text _ => []
  | .elem tag attrs children =>
      (if tag = name then [HNode.elem tag attrs children] else []) ++
        findAllTagIn name children

/-- All descendant elements with the given tag name, pre-order
(`tag.find_all(name)`). -/
def findAllTagIn (name : String) : List HNode → List HNode
  | [] => []
  | n :: rest => findAllTagNode name n ++ findAllTagIn name rest

end

mutual

/-- First element carrying the given class token at or below a node. -/
def selectOneClassNode (cls : String) : HNode → Option HNode
  | .text _ => none
  | .elem tag attrs children =>
      if cls ∈ classListOf attrs then some (.elem tag attrs children)
      else selectOneClassIn cls children

/-- First descendant element carrying the given class token, pre-order
(`tag.select_one("." + cls)`). -/
def selectOneClassIn (cls : String) : List HNode → Option HNode
  | [] => none
  | n :: rest =>
      match selectOneClassNode cls n with
      | some found => some found
      | none => selectOneClassIn cls rest

end

mutual

/-- All text descendants joined (`tag.get_text()`). -/
def getTextOf : HNode → String
  | .text s => s
  | .elem _ _ children => getTextList children

/-- `get_text` over a forest. -/
def getTextList : List HNode → String
  | [] => ""
  | n :: rest => getTextOf n ++ getTextList rest

end

mutual

/-- Stripped text descendants joined (`tag.get_text(strip=True)`). -/
def getTextStripOf : HNode → String
  | .text s => pyStrip s
  | .elem _ _ children => getTextStripList children

/-- `get_text(strip=True)` over a forest. -/
def getTextStripList : List HNode → String
  | [] => ""
  | n :: rest => getTextStripOf n ++ getTextStripList rest

end

/-- `tag.string`: the single text child, recursing through a single element
child, else `None`. -/
def nodeString : HNode → Option String
  | .text s => some s
  | .elem _ _ [child] => nodeString child
  | .elem _ _ _ => none

/-- The parameter dictionary of a structured macro
(`{param.get("ac:name", "").lower(): (param.string or "").strip() for param
in macro.find_all("ac:parameter")}`; later bindings overwrite). -/
def macroParams (children : List HNode) : List (String × String) :=
  (findAllTagIn "ac:parameter" children).foldl (fun acc param =>
    match param with
    | .elem _ attrs paramChildren =>
        cacheInsert acc (pyLower ((getAttr attrs "ac:name").getD ""))
          (pyStrip ((match nodeString (.elem "ac:parameter" attrs paramChildren) with
                     | some s => s
                     | none => "")))
    | .text _ => acc) []

/-- `params.get(key)` as a Python value: `none` when absent. -/
def paramGet (params : List (String × String)) (key : String) : Option String :=
  cacheGet params key

/-- `params.get(key, "")`. -/
def paramGetD (params : List (String × String)) (key : String) : String :=
  (cacheGet params key).getD ""

/-- Python `a or b` over optional strings (an empty string is falsy). -/
def optOr (a : Option String) (b : Option String) : Option String :=
  match a with
  | some s => if s ≠ "" then some s else b
  | none => b

/-- `Workflow._append_style` (workflow.py:1021-1032). -/
def appendStyle (attrs : List (String × String)) (styles : String) :
    List (String × String) :=
  let existing := pyStrip ((getAttr attrs "style").getD "")
  let addition := rstripSemis (pyStrip styles)
  if addition = "" then attrs
  else if existing ≠ "" then
    let existing :=
      if existing.data.getLast? = some ';' then existing else existing ++ ";"
    setAttr attrs "style" (existing ++ " " ++ addition ++ ";")
  else setAttr attrs "style" (addition ++ ";")

/-- `Workflow._set_style` (workflow.py:1034-1036). -/
def setStyle (attrs : List (String × String)) (styles : String) :
    List (String × String) :=
  let clean := rstripSemis (pyStrip styles)
  setAttr attrs "style" (if clean ≠ "" then clean ++ ";" else "")

/-- `Workflow._panel_container_style` (workflow.py:1174-1179). -/
def panelContainerStyle (borderColor backgroundColor : String) : String :=
  "margin:16px 0; border:1.5px solid " ++ borderColor ++ "; border-radius:3px; " ++
    "background-color:" ++ backgroundColor ++ "; padding:0; color:" ++
    DEFAULT_TEXT_COLOR ++ "; box-sizing:border-box; overflow:hidden;"

/-- Block-level tags restyled inside reconstructed panels. -/
def PANEL_BLOCK_TAGS : List String :=
  ["p", "div", "ul", "ol", "li", "table", "tbody", "tr", "td", "th", "pre"]

mutual

/-- `Workflow._normalize_panel_child` (workflow.py:1181-1193): append margin
and background styles to block-level elements, recursing into element
children. -/
def normalizePanelChild (backgroundColor : String) : HNode → HNode
  | .text s => .text s
  | .elem tag attrs children =>
      let name := pyLower tag
      let attrs :=
        if name ∈ PANEL_BLOCK_TAGS then
          let attrs := appendStyle attrs
            ("margin:0; background-color:" ++ backgroundColor ++ "; color:" ++
              DEFAULT_TEXT_COLOR ++ "; line-height:1.3;")
          if name = "ul" ∨ name = "ol" then appendStyle attrs "padding-left:20px;"
          else attrs
        else attrs
      .elem tag attrs (normalizePanelChildList backgroundColor children)

/-- `_normalize_panel_child` over children. -/
def normalizePanelChildList (backgroundColor : String) : List HNode → List HNode
  | [] => []
  | n :: rest =>
      normalizePanelChild backgroundColor n :: normalizePanelChildList backgroundColor rest

end

/-- `Workflow._build_panel_element` (workflow.py:1102-1172): the shared
panel construction.  `bodyNode` is the `body_node` argument; when it is
`none` and `originalPanel` is given, the original panel's children are
re-parented with the class-based skips of the source. -/
def buildPanelElement (titleText : String) (bodyNode : Option HNode)
    (originalPanel : Option HNode) (includeHeading : Bool)
    (borderColor backgroundColor : Option String) : HNode :=
  let border := (normaliseColour borderColor).getD PANEL_DEFAULT_BORDER
  let background := (normaliseColour backgroundColor).getD INFO_PANEL_BACKGROUND
  let panelAttrs := setStyle [] (panelContainerStyle border background)
  let innerAttrs := appendStyle []
    ("margin:0; padding:14px 18px; border:0; width:100%; " ++
      "background-color:" ++ background ++ "; color:" ++ DEFAULT_TEXT_COLOR ++
      "; line-height:1.3;")
  let headingNodes :=
    if includeHeading ∧ titleText ≠ "" then
      [HNode.elem "div"
        (appendStyle []
          ("font-weight:600; margin:0 0 8px 0; background-color:" ++ background ++ ";"))
        [.text titleText]]
    else []
  let contentAttrs := appendStyle []
    ("margin:0; padding:0; border:0; width:100%; background-color:" ++ background ++
      "; color:" ++ DEFAULT_TEXT_COLOR ++ "; line-height:1.3;")
  let contentChildren :=
    match bodyNode with
    | some (.elem _ _ bodyChildren) =>
        bodyChildren.map (fun child =>
          match child with
          | .elem t a c => normalizePanelChild background (.elem t a c)
          | .text s => .text s)
    | some (.text s) => [.text s]
    | none =>
      match originalPanel with
      | some (.elem _ _ panelChildren) =>
          panelChildren.filterMap (fun child =>
            match child with
            | .text s => if pyStrip s = "" then none else some (.text s)
            | .elem t a c =>
                let classes := classListOf a
                if ¬ classes.isEmpty ∧ classes.any (fun cls =>
                    "confluence-information-macro".data.isPrefixOf cls.data ∨
                      "aui-icon".data.isPrefixOf cls.data) then none
                else some (normalizePanelChild background (.elem t a c)))
      | _ => []
  let contentChildren :=
    if contentChildren.isEmpty then [HNode.text ""] else contentChildren
  HNode.elem "div" panelAttrs
    [HNode.elem "div" innerAttrs
      (headingNodes ++ [HNode.elem "div" contentAttrs contentChildren])]

/-- The inline status table `Workflow._apply_status_styles` builds
(workflow.py:936-965): colours resolved from the nominal colour token (or
the subtle palette), text colour from background brightness, and the
element's stripped text (falling back to its `title` attribute, then
`"Status"`). -/
def statusTableNode (element : HNode) (colour : Option String) (subtle : Bool) :
    HNode :=
  let colourHex := (normaliseColour colour).getD DEFAULT_STATUS_HEX
  let bg := if subtle then SUBTLE_BACKGROUND_HEX else colourHex
  let textColour := if subtle then DEFAULT_TEXT_COLOR else statusTextColour bg
  let border := if subtle then some SUBTLE_BORDER_HEX else none
  let elementAttrs := match element with | .elem _ attrs _ => attrs | .text _ => []
  let displayText :=
    let fromText := getTextStripOf element
    if fromText ≠ "" then fromText
    else
      match getAttr elementAttrs "title" with
      | some t => if t ≠ "" then t else "Status"
      | none => "Status"
  let borderStyle :=
    match border with
    | some b => "border:1px solid " ++ b ++ ";"
    | none => "border:0;"
  let tableStyle :=
    "border-collapse:separate; border-spacing:0; display:inline-table; " ++
      "margin-right:4px; vertical-align:middle;"
  let tdStyle :=
    "padding:2px 8px; mso-padding-alt:0px 8px 0px 8px; " ++ borderStyle ++ " " ++
      "border-radius:3px; " ++ "background-color:" ++ bg ++ "; color:" ++
      textColour ++ "; font-size:12px; font-weight:600; " ++
      "text-transform:none; line-height:1.3; mso-line-height-rule:exactly;"
  HNode.elem "table"
    [("role", "presentation"), ("cellspacing", "0"), ("cellpadding", "0"),
     ("style", tableStyle)]
    [HNode.elem "tr" []
      [HNode.elem "td" [("bgcolor", bg), ("style", tdStyle)]
        [.text displayText]]]

/-- `Workflow._apply_status_styles` in full: after building the replacement
table, `element.replace_with(table_tag)` is executed, and bs4 raises for an
element with no parent — which is exactly the state of the freshly created
`span` the status-macro materialisation passes in. -/
def applyStatusStyles (element : HNode) (isAttached : Bool)
    (colour : Option String) (subtle : Bool) : Except String HNode :=
  let tableNode := statusTableNode element colour subtle
  if isAttached then .ok tableNode else .error bsReplaceWithMsg

/-- `Workflow._build_status_span_from_macro` (workflow.py:844-855): reads
the macro parameters, creates a detached `span` and hands it to
`_apply_status_styles` — whose `replace_with` then raises. -/
def buildStatusSpanFromMacro (children : List HNode) : Except String HNode :=
  let params := macroParams children
  let titleParam := paramGetD params "title"
  let macroText := pyStrip (getTextList children)
  let title :=
    if titleParam ≠ "" then titleParam
    else if macroText ≠ "" then macroText
    else "Status"
  let colour :=
    let c1 := paramGetD params "colour"
    if c1 ≠ "" then c1 else paramGetD params "color"
  let subtle := pyLower (paramGetD params "subtle") = "true"
  let span := HNode.elem "span" [] [.text title]
  applyStatusStyles span false (some colour) subtle

/-- `Workflow._build_info_panel_from_macro` (workflow.py:857-875). -/
def buildInfoPanelFromMacro (children : List HNode) : HNode :=
  let params := macroParams children
  let icon :=
    pyCapitalize (match paramGet params "icon" with
                  | some s => s
                  | none => "information")
  let titleParam := paramGetD params "title"
  let titleText := if pyStrip titleParam ≠ "" then pyStrip titleParam else icon
  let includeHeading :=
    pyStrip titleParam ≠ "" ∧ pyLower (pyStrip titleParam) ≠ "info"
  let body := findTagIn "ac:rich-text-body" children
  buildPanelElement titleText body none includeHeading
    (some PANEL_DEFAULT_BORDER) (some INFO_PANEL_BACKGROUND)

/-- `Workflow._build_panel_from_macro` (workflow.py:877-900). -/
def buildPanelFromMacroNode (children : List HNode) : HNode :=
  let params := macroParams children
  let titleText := pyStrip (paramGetD params "title")
  let includeHeading := titleText ≠ ""
  let borderColor :=
    let c1 := paramGetD params "bordercolor"
    let c2 := paramGetD params "bordercolour"
    if c1 ≠ "" then c1 else if c2 ≠ "" then c2 else PANEL_DEFAULT_BORDER
  let backgroundColor :=
    let c1 := paramGetD params "bgcolor"
    let c2 := paramGetD params "background"
    let c3 := paramGetD params "backgroundcolor"
    if c1 ≠ "" then c1 else if c2 ≠ "" then c2
    else if c3 ≠ "" then c3 else INFO_PANEL_BACKGROUND
  let body := findTagIn "ac:rich-text-body" children
  buildPanelElement titleText body none includeHeading
    (some borderColor) (some backgroundColor)

mutual

/-- `Workflow._materialize_structured_macros` (workflow.py:828-842) as a
rewrite: `status` macros raise (see `buildStatusSpanFromMacro`), `info` and
`panel` macros become reconstructed panels, any other macro is dropped
(`decompose`). -/
def materializeNode : HNode → Except String (List HNode)
  | .text s => .ok [.text s]
  | .elem tag attrs children =>
      match materializeList children with
      | .error e => .error e
      | .ok newChildren =>
        if tag = "ac:structured-macro" then
          let macroName := pyLower ((getAttr attrs "ac:name").getD "")
          if macroName = "status" then
            match buildStatusSpanFromMacro newChildren with
            | .error e => .error e
            | .ok replacement => .ok [replacement]
          else if macroName = "info" then .ok [buildInfoPanelFromMacro newChildren]
          else if macroName = "panel" then .ok [buildPanelFromMacroNode newChildren]
          else .ok []
        else .ok [.elem tag attrs newChildren]

/-- `_materialize_structured_macros` over a forest. -/
def materializeList : List HNode → Except String (List HNode)
  | [] => .ok []
  | n :: rest =>
      match materializeNode n with
      | .error e => .error e
      | .ok ns =>
          match materializeList rest with
          | .error e => .error e
          | .ok rs => .ok (ns ++ rs)

end

mutual

/-- `Workflow._style_status_macros` (workflow.py:902-907) as a rewrite:
elements carrying the `status-macro` or `aui-lozenge` class are replaced by
the inline status table (the attached case of `_apply_status_styles`). -/
def styleStatusNode : HNode → HNode
  | .text s => .text s
  | .elem tag attrs children =>
      let el := HNode.elem tag attrs (styleStatusList children)
      let classes := classListOf attrs
      if "status-macro" ∈ classes ∨ "aui-lozenge" ∈ classes then
        statusTableNode el (pickColourFromElement attrs) ("aui-lozenge-subtle" ∈ classes)
      else el

/-- `_style_status_macros` over a forest. -/
def styleStatusList : List HNode → List HNode
  | [] => []
  | n :: rest => styleStatusNode n :: styleStatusList rest

end

/-- `Workflow._extract_style_color` (workflow.py:1195-1208). -/
def extractStyleColor (element : Option HNode) (propertyName : String) :
    Option String :=
  match element with
  | some (.elem _ attrs _) =>
      let styleAttr := (getAttr attrs "style").getD ""
      if styleAttr = "" then none
      else findStyleProp true propertyName styleAttr
  | _ => none

/-- `Workflow._build_info_panel_from_export` (workflow.py:1038-1067). -/
def buildInfoPanelFromExport (el : HNode) : HNode :=
  match el with
  | .text s => .text s
  | .elem tag attrs children =>
    let body :=
      match selectOneClassIn "confluence-information-macro-body" children with
      | some b => some b
      | none => selectOneClassIn "panelContent" children
    let titleElem :=
      match selectOneClassIn "confluence-information-macro-title" children with
      | some t => some t
      | none => selectOneClassIn "title-text" children
    let dataTitle := optOr (getAttr attrs "data-macro-title") (getAttr attrs "data-title")
    let titleViaElem :=
      match titleElem with
      | some te => let t := getTextStripOf te; if t ≠ "" then some t else none
      | none => none
    let (titleText, includeHeading) :=
      match titleViaElem with
      | some t => (t, decide (pyLower (pyStrip t) ≠ "info"))
      | none =>
        match dataTitle with
        | some dt =>
            if pyStrip dt ≠ "" then (pyStrip dt, decide (pyLower (pyStrip dt) ≠ "info"))
            else ("", false)
        | none =>
          match getAttr attrs "data-macro-name" with
          | some dn =>
              if pyStrip dn ≠ "" then
                let t := pyCapitalize (pyStrip dn)
                (t, decide (pyLower (pyStrip t) ≠ "info"))
              else ("", false)
          | none => ("", false)
    let titleText := if titleText = "" then "Info" else titleText
    buildPanelElement titleText body (some (.elem tag attrs children)) includeHeading
      (some PANEL_DEFAULT_BORDER) (some INFO_PANEL_BACKGROUND)

mutual

/-- `Workflow._style_info_macros` (workflow.py:909-914) as a rewrite. -/
def styleInfoNode : HNode → HNode
  | .text s => .text s
  | .elem tag attrs children =>
      let el := HNode.elem tag attrs (styleInfoList children)
      if "confluence-information-macro" ∈ classListOf attrs then
        buildInfoPanelFromExport el
      else el

/-- `_style_info_macros` over a forest. -/
def styleInfoList : List HNode → List HNode
  | [] => []
  | n :: rest => styleInfoNode n :: styleInfoList rest

end

/-- `Workflow._build_panel_from_export` (workflow.py:1069-1100). -/
def buildPanelFromExport (el : HNode) : HNode :=
  match el with
  | .text s => .text s
  | .elem tag attrs children =>
    let content :=
      match selectOneClassIn "panelContent" children with
      | some c => some c
      | none => selectOneClassIn "panel-body" children
    let header :=
      match selectOneClassIn "panelHeader" children with
      | some h => some h
      | none => selectOneClassIn "panel-heading" children
    let (titleText, includeHeading) :=
      match header with
      | some hd => let t := getTextStripOf hd; if t ≠ "" then (t, true) else ("", false)
      | none => ("", false)
    let borderColor :=
      optOr (getAttr attrs "data-bordercolor")
        (optOr (getAttr attrs "data-borderColor")
          (extractStyleColor (some (.elem tag attrs children)) "border-color"))
    let borderColor := match borderColor with | some b => b | none => PANEL_DEFAULT_BORDER
    let contentBg :=
      match content with
      | some (.elem _ cattrs _) => getAttr cattrs "data-bgcolor"
      | _ => none
    let backgroundColor :=
      optOr (getAttr attrs "data-bgcolor")
        (optOr contentBg
          (optOr (extractStyleColor (some (.elem tag attrs children)) "background-color")
            (extractStyleColor content "background-color")))
    let backgroundColor :=
      match backgroundColor with | some b => b | none => INFO_PANEL_BACKGROUND
    buildPanelElement titleText content
      (if content.isNone then some (.elem tag attrs children) else none)
      includeHeading (some borderColor) (some backgroundColor)

mutual

/-- `Workflow._style_panel_macros` (workflow.py:916-923) as a rewrite:
`div.panel` elements not carrying a `confluence-information-macro*` class
are replaced by the reconstructed panel. -/
def stylePanelNode : HNode → HNode
  | .text s => .text s
  | .elem tag attrs children =>
      let el := HNode.elem tag attrs (stylePanelList children)
      let classes := classListOf attrs
      if tag = "div" ∧ "panel" ∈ classes then
        if ¬ classes.isEmpty ∧ classes.any (fun cls =>
            "confluence-information-macro".data.isPrefixOf cls.data) then el
        else buildPanelFromExport el
      else el

/-- `_style_panel_macros` over a forest. -/
def stylePanelList : List HNode → List HNode
  | [] => []
  | n :: rest => stylePanelNode n :: stylePanelList rest

end

/-- The selector classes of `Workflow._strip_table_of_contents`
(workflow.py:925-935). -/
def TOC_CLASSES : List String :=
  ["toc-macro", "tocMacro", "toc-macro-section", "toc-macro-list",
   "toc-macro-heading"]

mutual

/-- `Workflow._strip_table_of_contents` as a rewrite: elements matching any
of the table-of-contents selectors are decomposed. -/
def stripTocNode : HNode → List HNode
  | .text s => [.text s]
  | .elem tag attrs children =>
      if (classListOf attrs).any (fun cls => cls ∈ TOC_CLASSES) then []
      else [.elem tag attrs (stripTocList children)]

/-- `_strip_table_of_contents` over a forest. -/
def stripTocList : List HNode → List HNode
  | [] => []
  | n :: rest => stripTocNode n ++ stripTocList rest

end

/-- `Workflow._enhance_email_html` (workflow.py:805-826) on a parsed
document: materialise storage macros when any `ac:structured-macro` is
present, then restyle status elements, information macros and panels, and
strip table-of-contents elements.  The `Except.error` carries the
`ValueError` bs4 raises when the status-macro path calls `replace_with` on
the detached span — an exception `_enhance_email_html` does not catch. -/
def enhanceEmailHtml (doc : List HNode) : Except String (List HNode) :=
  let materialized :=
    if containsTag "ac:structured-macro" doc then materializeList doc else .ok doc
  match materialized with
  | .error e => .error e
  | .ok doc =>
      .ok (stripTocList (stylePanelList (styleInfoList (styleStatusList doc))))

/-! ## Concrete inputs used by the claim theorems -/

/-- The parse tree of the status macro the renderer emits as the impediment
badge (`_impediment_badge`, renderers.py:160-167). -/
def statusMacroDom : HNode :=
  .elem "ac:structured-macro" [("ac:name", "status")]
    [.elem "ac:parameter" [("ac:name", "colour")] [.text "red"],
     .elem "ac:parameter" [("ac:name", "title")] [.text "IMPEDIMENT"],
     .elem "ac:parameter" [("ac:name", "subtle")] [.text "false"]]

/-- An issue whose single comment author carries name `ua` and display name
`User A`. -/
def leakIssueA : JVal :=
  .obj [("key", .str "A-1"),
        ("fields", .obj [("comment", .obj [("comments", .arr
          [.obj [("author", .obj [("name", .str "ua"), ("displayName", .str "User A")]),
                 ("body", .str "hi")]])])])]

/-- An issue with no authors whose description mentions `[~ua]`. -/
def leakIssueB : JVal :=
  .obj [("key", .str "B-2"),
        ("fields", .obj [("description", .str "ping [~ua]")])]

/-- A structured comment body carrying the text `from tree`. -/
def treeBody : JVal :=
  .obj [("type", .str "paragraph"),
        ("content", .arr [.obj [("type", .str "text"), ("text", .str "from tree")]])]

/-- A comment carrying both a node-tree body and a non-empty `renderedBody`
string. -/
def bothFormsComment : JVal :=
  .obj [("body", treeBody), ("renderedBody", .str "from rendered")]

/-- A paragraph with a `hardBreak` between two text nodes. -/
def hardBreakDoc : JVal :=
  .obj [("type", .str "paragraph"),
        ("content", .arr
          [.obj [("type", .str "text"), ("text", .str "a")],
           .obj [("type", .str "hardBreak")],
           .obj [("type", .str "text"), ("text", .str "b")]])]

/-- An ADF node with a type and a content list. -/
def mkAdfNode (t : String) (cs : List JVal) : JVal :=
  .obj [("type", .str t), ("content", .arr cs)]

/-- A comment created exactly at `now - 24h` for `now =
2024-06-15T12:00:00Z`. -/
def boundaryComment : JVal :=
  .obj [("created", .str "2024-06-14T12:00:00.000000+0000"), ("body", .str "boundary")]

/-- A comment created one microsecond before the 24-hour cutoff. -/
def earlierComment : JVal :=
  .obj [("created", .str "2024-06-14T11:59:59.999999+0000"), ("body", .str "early")]

/-- A comment whose `created` timestamp parses under neither format. -/
def unparseableComment : JVal :=
  .obj [("created", .str "not-a-timestamp"), ("body", .str "bad")]

/-- An issue carrying the three comments above. -/
def boundaryIssue : JVal :=
  .obj [("fields", .obj [("comment", .obj [("comments", .arr
    [boundaryComment, earlierComment, unparseableComment])])])]

/-! ## Shared lemmas -/

/-- Unfolding of `extractChildrenValues` on a cons cell (the compiled
recursion is not definitionally transparent on open terms). -/
theorem extractChildrenValues_cons (k : String) (v : JVal)
    (rest : List (String × JVal)) :
    extractChildrenValues ((k, v) :: rest) =
      (if k = "children" then
        (match v with
         | .arr children => extractFieldValuesList children
         | _ => [])
      else extractChildrenValues rest) := by
  rw [extractChildrenValues.eq_def]

/-- The structural `children` walk agrees with the dictionary lookup the
source performs (`value["children"]`, first binding). -/
theorem extractChildrenValues_eq (fields : List (String × JVal)) :
    extractChildrenValues fields =
      (match jLookup fields "children" with
       | some (.arr cs) => extractFieldValuesList cs
       | _ => []) := by
  induction fields with
  | nil => rfl
  | cons kv rest ih =>
      obtain ⟨k, v⟩ := kv
      rw [extractChildrenValues_cons]
      by_cases hk : k = "children"
      · rw [if_pos hk]
        rw [show jLookup ((k, v) :: rest) "children" = some v from by simp [jLookup, hk]]
        cases v <;> rfl
      · rw [if_neg hk]
        rw [show jLookup ((k, v) :: rest) "children" = jLookup rest "children" from by
          simp [jLookup, hk]]
        exact ih

/-- The accumulating list walk is elementwise concatenation. -/
theorem extractFieldValuesList_eq_flatten (l : List JVal) :
    extractFieldValuesList l = (l.map extractFieldValues).flatten := by
  induction l with
  | nil => rfl
  | cons v rest ih =>
      rw [extractFieldValuesList.eq_def]
      simp [ih]

/-- Unfolding of the string branch of `_extract_field_values`. -/
theorem extractFieldValues_str_eq (s : String) :
    extractFieldValues (.str s) = (if pyStrip s ≠ "" then [pyStrip s] else []) := by
  rw [extractFieldValues.eq_def]

/-- Unfolding of the list branch of `_extract_field_values`. -/
theorem extractFieldValues_arr_eq (items : List JVal) :
    extractFieldValues (.arr items) =
      (extractFieldValuesList items).filter (fun v => v ≠ "") := by
  rw [extractFieldValues.eq_def]

/-- Unfolding of the dict branch of `_extract_field_values`. -/
theorem extractFieldValues_obj_eq (fields : List (String × JVal)) :
    extractFieldValues (.obj fields) =
      (["value", "name", "displayName", "title"].filterMap (fieldKeyContrib fields)) ++
        extractChildrenValues fields := by
  rw [extractFieldValues.eq_def]

/-- The `for comment in comments` loop of `_collect_recent_comments` as a
`filterMap`. -/
theorem foldl_recentCommentStep (cutoff : Int) (cs : List JVal)
    (acc : List (JVal × Int)) :
    cs.foldl (recentCommentStep cutoff) acc =
      acc ++ cs.filterMap (fun c =>
        if commentIgnoredWF c then none
        else
          match parseCommentDatetime (c.getD "created" .null) with
          | none => none
          | some t => if cutoff ≤ t then some (c, t) else none) := by
  induction cs generalizing acc with
  | nil => simp
  | cons c rest ih =>
      simp only [List.foldl_cons, List.filterMap_cons, ih, recentCommentStep]
      by_cases hig : commentIgnoredWF c
      · simp [hig]
      · simp only [hig]
        match hp : parseCommentDatetime (c.getD "created" .null) with
        | none => simp
        | some t =>
            by_cases hc : cutoff ≤ t
            · simp [hc]
            · simp [hc]

/-! ### Error analysis of the binary64 brightness

`rnd53` rounds with error at most half an ulp; propagated through the three
products and two sums (operands bounded by 255 and 400), the computed
brightness is within `1/2000` of the exact rational
`(299R + 587G + 114B)/1000` — less than half the spacing `1/1000` of that
grid, so away from the exact threshold the float comparison agrees with the
exact one. -/

theorem bitLenAux_zero (f : Nat) : bitLenAux f 0 = 0 := by cases f <;> rfl

theorem bitLenAux_spec (fuel : Nat) : ∀ n, n ≤ fuel →
    n < 2 ^ bitLenAux fuel n ∧ (1 ≤ n → 2 ^ (bitLenAux fuel n - 1) ≤ n) := by
  induction fuel with
  | zero =>
      intro n hn
      have h0 : n = 0 := by omega
      subst h0
      simp [bitLenAux]
  | succ f ih =>
      intro n hn
      cases n with
      | zero => simp [bitLenAux]
      | succ m =>
          have hdiv : (m + 1) / 2 ≤ f := by omega
          obtain ⟨h1, h2⟩ := ih ((m + 1) / 2) hdiv
          have hk : bitLenAux (f + 1) (m + 1) = bitLenAux f ((m + 1) / 2) + 1 := rfl
          rw [hk]
          set k := bitLenAux f ((m + 1) / 2) with hkdef
          have e1 : 2 ^ (k + 1) = 2 * 2 ^ k := by rw [pow_succ]; ring
          constructor
          · rw [e1]
            generalize 2 ^ k = K at h1 ⊢
            omega
          · intro _
            simp only [Nat.add_sub_cancel]
            by_cases hz : (m + 1) / 2 = 0
            · have : k = 0 := by rw [hkdef, hz, bitLenAux_zero]
              simp [this]
            · have h2' := h2 (by omega)
              have hk1 : 1 ≤ k := by
                by_contra hlt
                have hke : k = 0 := by omega
                rw [hke] at h1
                simp at h1
                omega
              have e2 : 2 ^ k = 2 * 2 ^ (k - 1) := by
                conv_lhs => rw [show k = (k - 1) + 1 by omega]
                rw [pow_succ]; ring
              rw [e2]
              generalize 2 ^ (k - 1) = K at h2' ⊢
              omega

theorem bitLen_spec (n : Nat) (h : 1 ≤ n) :
    2 ^ (bitLen n - 1) ≤ n ∧ n < 2 ^ bitLen n := by
  obtain ⟨a, b⟩ := bitLenAux_spec n n (le_refl n)
  exact ⟨b h, a⟩

theorem rnd53_val (N : Nat) :
    |((rnd53 N).1 : ℚ) * (2 : ℚ) ^ (rnd53 N).2 - N| ≤ (N : ℚ) / 2 ^ 53 := by
  by_cases hs : bitLen N ≤ 53
  · have hs0 : bitLen N - 53 = 0 := by omega
    simp [rnd53, hs0, Nat.mod_one]
    positivity
  · set s := bitLen N - 53 with hsdef
    have hs1 : 1 ≤ s := by omega
    have hN1 : 1 ≤ N := by
      by_contra h0
      have : N = 0 := by omega
      rw [this] at hsdef
      simp [bitLen, bitLenAux] at hsdef
      omega
    have hlow : 2 ^ (s + 52) ≤ N := by
      have := (bitLen_spec N hN1).1
      have he : bitLen N - 1 = s + 52 := by omega
      rwa [he] at this
    have hdm : 2 ^ s * (N / 2 ^ s) + N % 2 ^ s = N := Nat.div_add_mod N (2 ^ s)
    have hrlt : N % 2 ^ s < 2 ^ s := Nat.mod_lt _ (by positivity)
    have hsplit : (2 : ℕ) ^ s = 2 * 2 ^ (s - 1) := by
      conv_lhs => rw [show s = (s - 1) + 1 by omega]
      rw [pow_succ]; ring
    have hkey : (2 : ℕ) ^ (s - 1) * 2 ^ 53 ≤ N := by
      calc (2 : ℕ) ^ (s - 1) * 2 ^ 53 = 2 ^ (s + 52) := by
            rw [← pow_add]; congr 1; omega
        _ ≤ N := hlow
    -- cast the inequalities to ℚ
    have hdmQ : (2 : ℚ) ^ s * ((N / 2 ^ s : ℕ) : ℚ) + ((N % 2 ^ s : ℕ) : ℚ) = N := by
      exact_mod_cast congrArg (Nat.cast : ℕ → ℚ) hdm
    have hrltQ : ((N % 2 ^ s : ℕ) : ℚ) < (2 : ℚ) ^ s := by exact_mod_cast hrlt
    have hsplitQ : (2 : ℚ) ^ s = 2 * 2 ^ (s - 1) := by exact_mod_cast hsplit
    have hkeyQ : (2 : ℚ) ^ (s - 1) ≤ (N : ℚ) / 2 ^ 53 := by
      rw [le_div_iff₀ (by positivity)]
      exact_mod_cast hkey
    have hrule : rnd53 N =
        (if 2 * (N % 2 ^ s) > 2 ^ s ∨ (2 * (N % 2 ^ s) = 2 ^ s ∧ (N / 2 ^ s) % 2 = 1)
         then N / 2 ^ s + 1 else N / 2 ^ s, s) := rfl
    by_cases hc : 2 * (N % 2 ^ s) > 2 ^ s ∨ (2 * (N % 2 ^ s) = 2 ^ s ∧ (N / 2 ^ s) % 2 = 1)
    · have hup : (2 : ℕ) ^ s ≤ 2 * (N % 2 ^ s) := by
        rcases hc with h | h
        · omega
        · omega
      have hupQ : (2 : ℚ) ^ s ≤ 2 * ((N % 2 ^ s : ℕ) : ℚ) := by exact_mod_cast hup
      rw [hrule, if_pos hc]
      simp only
      rw [abs_le]
      constructor
      · push_cast
        linarith
      · push_cast
        linarith
    · have hdn : 2 * (N % 2 ^ s) ≤ 2 ^ s := by
        by_contra h
        exact hc (Or.inl (by omega))
      have hdnQ : 2 * ((N % 2 ^ s : ℕ) : ℚ) ≤ (2 : ℚ) ^ s := by exact_mod_cast hdn
      rw [hrule, if_neg hc]
      simp only
      rw [abs_le]
      constructor
      · linarith
      · linarith

theorem val_fpMulNat (x : Nat × Int) (n : Nat) :
    |FP.val (fpMulNat x n) - FP.val x * n| ≤ FP.val x * n / 2 ^ 53 := by
  have h := rnd53_val (x.1 * n)
  have h2 : (0 : ℚ) < (2 : ℚ) ^ x.2 := zpow_pos (by norm_num) _
  have key : FP.val (fpMulNat x n) - FP.val x * n =
      (((rnd53 (x.1 * n)).1 : ℚ) * (2 : ℚ) ^ (rnd53 (x.1 * n)).2 -
        ((x.1 * n : ℕ) : ℚ)) * (2 : ℚ) ^ x.2 := by
    simp only [FP.val, fpMulNat]
    rw [zpow_add₀ (two_ne_zero), zpow_natCast]
    push_cast
    ring
  rw [key, abs_mul, abs_of_pos h2]
  calc |((rnd53 (x.1 * n)).1 : ℚ) * (2 : ℚ) ^ (rnd53 (x.1 * n)).2 -
          ((x.1 * n : ℕ) : ℚ)| * (2 : ℚ) ^ x.2
      ≤ ((x.1 * n : ℕ) : ℚ) / 2 ^ 53 * (2 : ℚ) ^ x.2 :=
        mul_le_mul_of_nonneg_right h (le_of_lt h2)
    _ = FP.val x * n / 2 ^ 53 := by
        simp only [FP.val]
        push_cast
        ring

theorem val_fpAdd (x y : Nat × Int) :
    |FP.val (fpAdd x y) - (FP.val x + FP.val y)| ≤
      (FP.val x + FP.val y) / 2 ^ 53 := by
  set e := min x.2 y.2 with hedef
  set N := x.1 * 2 ^ (x.2 - e).toNat + y.1 * 2 ^ (y.2 - e).toNat with hNdef
  have hex : ((x.2 - e).toNat : ℤ) = x.2 - e := Int.toNat_of_nonneg (by omega)
  have hey : ((y.2 - e).toNat : ℤ) = y.2 - e := Int.toNat_of_nonneg (by omega)
  have h2 : (0 : ℚ) < (2 : ℚ) ^ e := zpow_pos (by norm_num) _
  have hsum : ((N : ℕ) : ℚ) * (2 : ℚ) ^ e = FP.val x + FP.val y := by
    simp only [FP.val, hNdef]
    push_cast
    rw [← zpow_natCast (2 : ℚ) (x.2 - e).toNat, ← zpow_natCast (2 : ℚ) (y.2 - e).toNat,
      hex, hey]
    rw [add_mul, mul_assoc, mul_assoc, ← zpow_add₀ (two_ne_zero : (2 : ℚ) ≠ 0),
      ← zpow_add₀ (two_ne_zero : (2 : ℚ) ≠ 0)]
    rw [show x.2 - e + e = x.2 by ring, show y.2 - e + e = y.2 by ring]
  have h := rnd53_val N
  have key : FP.val (fpAdd x y) - (FP.val x + FP.val y) =
      (((rnd53 N).1 : ℚ) * (2 : ℚ) ^ (rnd53 N).2 - (N : ℚ)) * (2 : ℚ) ^ e := by
    rw [← hsum]
    simp only [FP.val, fpAdd, ← hedef, ← hNdef]
    rw [zpow_add₀ (two_ne_zero), zpow_natCast]
    ring
  rw [key, abs_mul, abs_of_pos h2]
  calc |((rnd53 N).1 : ℚ) * (2 : ℚ) ^ (rnd53 N).2 - (N : ℚ)| * (2 : ℚ) ^ e
      ≤ (N : ℚ) / 2 ^ 53 * (2 : ℚ) ^ e :=
        mul_le_mul_of_nonneg_right h (le_of_lt h2)
    _ = (FP.val x + FP.val y) / 2 ^ 53 := by
        rw [← hsum]
        ring

theorem fpGE170_iff (x : Nat × Int) :
    fpGE170 x = true ↔ (170 : ℚ) ≤ FP.val x := by
  simp only [fpGE170, FP.val]
  by_cases he : (0 : ℤ) ≤ x.2
  · rw [if_pos he]
    simp only [decide_eq_true_eq]
    have hp : (2 : ℚ) ^ x.2 = ((2 ^ x.2.toNat : ℕ) : ℚ) := by
      push_cast
      rw [← zpow_natCast (2 : ℚ) x.2.toNat, Int.toNat_of_nonneg he]
    rw [hp, show (170 : ℚ) = ((170 : ℕ) : ℚ) by norm_num, ← Nat.cast_mul, Nat.cast_le]
  · rw [if_neg he]
    simp only [decide_eq_true_eq]
    have hk : ((-x.2).toNat : ℤ) = -x.2 := Int.toNat_of_nonneg (by omega)
    have h2 : (0 : ℚ) < ((2 ^ (-x.2).toNat : ℕ) : ℚ) := by positivity
    have keyQ : (2 : ℚ) ^ x.2 * ((2 ^ (-x.2).toNat : ℕ) : ℚ) = 1 := by
      push_cast
      rw [← zpow_natCast (2 : ℚ) (-x.2).toNat, hk,
        ← zpow_add₀ (two_ne_zero : (2 : ℚ) ≠ 0)]
      rw [show x.2 + -x.2 = 0 by ring]
      rfl
    constructor
    · intro hnat
      have hq : ((170 * 2 ^ (-x.2).toNat : ℕ) : ℚ) ≤ (x.1 : ℚ) := by exact_mod_cast hnat
      push_cast at hq
      have := mul_le_mul_of_nonneg_right hq (le_of_lt (zpow_pos (show (0:ℚ) < 2 by norm_num) x.2))
      calc (170 : ℚ) = 170 * (((2 ^ (-x.2).toNat : ℕ) : ℚ) * (2 : ℚ) ^ x.2) := by
            rw [mul_comm ((2 ^ (-x.2).toNat : ℕ) : ℚ), keyQ, mul_one]
        _ = 170 * ((2 ^ (-x.2).toNat : ℕ) : ℚ) * (2 : ℚ) ^ x.2 := by ring
        _ ≤ (x.1 : ℚ) * (2 : ℚ) ^ x.2 := by
            push_cast
            exact this
    · intro hq
      have := mul_le_mul_of_nonneg_right hq (le_of_lt h2)
      rw [mul_assoc, keyQ, mul_one] at this
      exact_mod_cast this

theorem val_nonneg (x : Nat × Int) : 0 ≤ FP.val x := by
  simp only [FP.val]
  positivity

theorem C299_close : |FP.val C299 - 299 / 1000| ≤ 1 / 10 ^ 9 ∧ FP.val C299 ≤ 1 := by
  have hv : FP.val C299 = 5386305154335113 / 2 ^ 54 := by
    simp only [FP.val, C299]
    rw [show ((-54 : ℤ)) = -((54 : ℕ) : ℤ) by norm_num, zpow_neg, zpow_natCast]
    ring
  rw [hv]
  constructor
  · rw [abs_le]
    constructor <;> norm_num
  · norm_num

theorem C587_close : |FP.val C587 - 587 / 1000| ≤ 1 / 10 ^ 9 ∧ FP.val C587 ≤ 1 := by
  have hv : FP.val C587 = 5287225962532962 / 2 ^ 53 := by
    simp only [FP.val, C587]
    rw [show ((-53 : ℤ)) = -((53 : ℕ) : ℤ) by norm_num, zpow_neg, zpow_natCast]
    ring
  rw [hv]
  constructor
  · rw [abs_le]
    constructor <;> norm_num
  · norm_num

theorem C114_close : |FP.val C114 - 114 / 1000| ≤ 1 / 10 ^ 9 ∧ FP.val C114 ≤ 1 := by
  have hv : FP.val C114 = 8214565720323785 / 2 ^ 56 := by
    simp only [FP.val, C114]
    rw [show ((-56 : ℤ)) = -((56 : ℕ) : ℤ) by norm_num, zpow_neg, zpow_natCast]
    ring
  rw [hv]
  constructor
  · rw [abs_le]
    constructor <;> norm_num
  · norm_num

theorem fpMulNat_close (c : Nat × Int) (mid : ℚ) (n : Nat)
    (hc : |FP.val c - mid| ≤ 1 / 10 ^ 9) (hc1 : FP.val c ≤ 1) (hn : n ≤ 255) :
    |FP.val (fpMulNat c n) - mid * n| ≤ 1 / 10 ^ 6 := by
  have hn' : (n : ℚ) ≤ 255 := by exact_mod_cast hn
  have hn0 : (0 : ℚ) ≤ n := Nat.cast_nonneg n
  have t1 := val_fpMulNat c n
  have hc0 : (0 : ℚ) ≤ FP.val c := val_nonneg c
  have h2 : |FP.val c * n - mid * n| = |FP.val c - mid| * n := by
    rw [← sub_mul, abs_mul, abs_of_nonneg hn0]
  have hprod : FP.val c * n ≤ 255 := by nlinarith
  calc |FP.val (fpMulNat c n) - mid * n|
      ≤ |FP.val (fpMulNat c n) - FP.val c * n| + |FP.val c * n - mid * n| :=
        abs_sub_le _ _ _
    _ ≤ FP.val c * n / 2 ^ 53 + |FP.val c - mid| * n := by
        rw [h2]
        exact add_le_add t1 le_rfl
    _ ≤ 255 / 2 ^ 53 + (1 / 10 ^ 9) * 255 := by
        apply add_le_add
        · exact div_le_div_of_nonneg_right hprod (by positivity)
        · exact mul_le_mul hc hn' hn0 (by norm_num)
    _ ≤ 1 / 10 ^ 6 := by norm_num

theorem fpAdd_close (x y : Nat × Int) (mx my ex ey : ℚ)
    (hx : |FP.val x - mx| ≤ ex) (hy : |FP.val y - my| ≤ ey)
    (hbx : FP.val x + FP.val y ≤ 400) :
    |FP.val (fpAdd x y) - (mx + my)| ≤ ex + ey + 400 / 2 ^ 53 := by
  have t := val_fpAdd x y
  have h0 : (0 : ℚ) ≤ FP.val x + FP.val y := by
    have := val_nonneg x
    have := val_nonneg y
    linarith
  calc |FP.val (fpAdd x y) - (mx + my)|
      ≤ |FP.val (fpAdd x y) - (FP.val x + FP.val y)| +
          |(FP.val x + FP.val y) - (mx + my)| := abs_sub_le _ _ _
    _ ≤ (FP.val x + FP.val y) / 2 ^ 53 + (|FP.val x - mx| + |FP.val y - my|) := by
        apply add_le_add t
        calc |(FP.val x + FP.val y) - (mx + my)|
            = |(FP.val x - mx) + (FP.val y - my)| := by ring_nf
          _ ≤ |FP.val x - mx| + |FP.val y - my| := abs_add _ _
    _ ≤ 400 / 2 ^ 53 + (ex + ey) := by
        apply add_le_add
        · exact div_le_div_of_nonneg_right hbx (by positivity)
        · linarith
    _ = ex + ey + 400 / 2 ^ 53 := by ring

theorem floatBrightness_close (r g b : Nat) (hr : r ≤ 255) (hg : g ≤ 255) (hb : b ≤ 255) :
    |FP.val (floatBrightness r g b) - ((299 * r + 587 * g + 114 * b : ℕ) : ℚ) / 1000| ≤
      1 / 2000 := by
  have hr' : (r : ℚ) ≤ 255 := by exact_mod_cast hr
  have hg' : (g : ℚ) ≤ 255 := by exact_mod_cast hg
  have hb' : (b : ℚ) ≤ 255 := by exact_mod_cast hb
  have hr0 : (0 : ℚ) ≤ r := Nat.cast_nonneg r
  have hg0 : (0 : ℚ) ≤ g := Nat.cast_nonneg g
  have hb0 : (0 : ℚ) ≤ b := Nat.cast_nonneg b
  have d1 := fpMulNat_close C299 (299 / 1000) r C299_close.1 C299_close.2 hr
  have d2 := fpMulNat_close C587 (587 / 1000) g C587_close.1 C587_close.2 hg
  have d3 := fpMulNat_close C114 (114 / 1000) b C114_close.1 C114_close.2 hb
  have b1 : FP.val (fpMulNat C299 r) ≤ 77 := by
    have := abs_le.mp d1
    have h299 : (299 / 1000 : ℚ) * r ≤ 299 / 1000 * 255 := by
      apply mul_le_mul_of_nonneg_left hr' (by norm_num)
    nlinarith
  have b2 : FP.val (fpMulNat C587 g) ≤ 150 := by
    have := abs_le.mp d2
    have h587 : (587 / 1000 : ℚ) * g ≤ 587 / 1000 * 255 := by
      apply mul_le_mul_of_nonneg_left hg' (by norm_num)
    nlinarith
  have b3 : FP.val (fpMulNat C114 b) ≤ 30 := by
    have := abs_le.mp d3
    have h114 : (114 / 1000 : ℚ) * b ≤ 114 / 1000 * 255 := by
      apply mul_le_mul_of_nonneg_left hb' (by norm_num)
    nlinarith
  have s1 := fpAdd_close (fpMulNat C299 r) (fpMulNat C587 g)
    (299 / 1000 * r) (587 / 1000 * g) (1 / 10 ^ 6) (1 / 10 ^ 6) d1 d2 (by linarith)
  have bs1 : FP.val (fpAdd (fpMulNat C299 r) (fpMulNat C587 g)) ≤ 370 := by
    have := abs_le.mp s1
    have h299 : (299 / 1000 : ℚ) * r ≤ 299 / 1000 * 255 := by
      apply mul_le_mul_of_nonneg_left hr' (by norm_num)
    have h587 : (587 / 1000 : ℚ) * g ≤ 587 / 1000 * 255 := by
      apply mul_le_mul_of_nonneg_left hg' (by norm_num)
    nlinarith
  have s2 := fpAdd_close (fpAdd (fpMulNat C299 r) (fpMulNat C587 g)) (fpMulNat C114 b)
    (299 / 1000 * r + 587 / 1000 * g) (114 / 1000 * b)
    (1 / 10 ^ 6 + 1 / 10 ^ 6 + 400 / 2 ^ 53) (1 / 10 ^ 6) s1 d3 (by linarith)
  have hmid : (299 / 1000 : ℚ) * r + 587 / 1000 * g + 114 / 1000 * b =
      ((299 * r + 587 * g + 114 * b : ℕ) : ℚ) / 1000 := by
    push_cast
    ring
  have hnum : (1 / 10 ^ 6 + 1 / 10 ^ 6 + 400 / 2 ^ 53 : ℚ) + 1 / 10 ^ 6 + 400 / 2 ^ 53 ≤
      1 / 2000 := by norm_num
  calc |FP.val (floatBrightness r g b) -
        ((299 * r + 587 * g + 114 * b : ℕ) : ℚ) / 1000|
      = |FP.val (fpAdd (fpAdd (fpMulNat C299 r) (fpMulNat C587 g)) (fpMulNat C114 b)) -
          ((299 / 1000 * r + 587 / 1000 * g) + 114 / 1000 * b)| := by
        rw [hmid]
        rfl
    _ ≤ (1 / 10 ^ 6 + 1 / 10 ^ 6 + 400 / 2 ^ 53) + 1 / 10 ^ 6 + 400 / 2 ^ 53 := s2
    _ ≤ 1 / 2000 := hnum

theorem hexDigitVal_le (c : Char) (d : Nat) (h : hexDigitVal c = some d) : d ≤ 15 := by
  unfold hexDigitVal at h
  split_ifs at h with h1 h2 h3 <;> simp at h <;> omega

theorem pyIntHex_le255 (l : List Char) (hl : l.length ≤ 2) (v : Nat)
    (h : pyIntHex l = some v) : v ≤ 255 := by
  match l with
  | [] => simp [pyIntHex] at h
  | [a] =>
      simp only [pyIntHex, List.foldl] at h
      cases ha : hexDigitVal a with
      | none => rw [ha] at h; simp at h
      | some d =>
          rw [ha] at h
          simp at h
          have := hexDigitVal_le a d ha
          omega
  | [a, b] =>
      simp only [pyIntHex, List.foldl] at h
      cases ha : hexDigitVal a with
      | none => rw [ha] at h; simp at h
      | some d1 =>
          rw [ha] at h
          cases hb : hexDigitVal b with
          | none => rw [hb] at h; simp at h
          | some d2 =>
              rw [hb] at h
              simp at h
              have e1 := hexDigitVal_le a d1 ha
              have e2 := hexDigitVal_le b d2 hb
              omega
  | a :: b :: c :: rest => simp at hl

theorem parseRGB_le (hex : String) (r g b : Nat)
    (h : parseRGB hex = some (r, g, b)) : r ≤ 255 ∧ g ≤ 255 ∧ b ≤ 255 := by
  simp only [parseRGB] at h
  set cs := hex.data.dropWhile (· = '#') with hcs
  cases h1 : pyIntHex (cs.take 2) with
  | none => rw [h1] at h; simp at h
  | some rv =>
    cases h2 : pyIntHex ((cs.drop 2).take 2) with
    | none => rw [h1, h2] at h; simp at h
    | some gv =>
      cases h3 : pyIntHex ((cs.drop 4).take 2) with
      | none => rw [h1, h2, h3] at h; simp at h
      | some bv =>
        rw [h1, h2, h3] at h
        simp at h
        obtain ⟨e1, e2, e3⟩ := h
        subst e1
        subst e2
        subst e3
        refine ⟨pyIntHex_le255 _ ?_ _ h1, pyIntHex_le255 _ ?_ _ h2,
          pyIntHex_le255 _ ?_ _ h3⟩
        · exact List.length_take_le 2 cs
        · exact List.length_take_le 2 (cs.drop 2)
        · exact List.length_take_le 2 (cs.drop 4)

/-! ## Claim theorems -/

/-- Claim C1, counterexample.  The code computes the brightness of
`#36B37E` as 135.583 (scaled: 135583 < 170000), so the text colour for that
background is white — not the dark `#172B4D` the claim asserts for this
very hex. -/
theorem claim_C1_counterexample :
    parseRGB "#36B37E" = some (54, 179, 126) ∧
      299 * 54 + 587 * 179 + 114 * 126 < 170000 ∧
      statusTextColour "#36B37E" = "#FFFFFF" ∧
      "#FFFFFF" ≠ DEFAULT_TEXT_COLOR := by
  refine ⟨by decide, by decide, by decide, by decide⟩

/-- Claim C1, amended.  The text colour follows perceptual brightness
`0.299*R + 0.587*G + 0.114*B` with threshold 170, computed in double
precision: whenever the exact brightness is off the threshold (scaled:
`299R + 587G + 114B ≠ 170000`) the code returns the dark `#172B4D` iff the
exact brightness is at least 170, and white below it.  On the threshold
itself the floating-point sum can round just below 170: `#44FE05` has
exact brightness 170 yet yields white.  And the claim's own example
`#36B37E` (brightness 135.583) yields white, not the dark colour, as does
`#FF5630` (brightness 132.244). -/
theorem claim_C1_amended :
    (∀ hex r g b, parseRGB hex = some (r, g, b) →
        299 * r + 587 * g + 114 * b ≠ 170000 →
        statusTextColour hex =
          (if 170000 ≤ 299 * r + 587 * g + 114 * b then DEFAULT_TEXT_COLOR
           else "#FFFFFF")) ∧
      statusTextColour "#36B37E" = "#FFFFFF" ∧
      statusTextColour "#FF5630" = "#FFFFFF" ∧
      (parseRGB "#44FE05" = some (68, 254, 5) ∧
        299 * 68 + 587 * 254 + 114 * 5 = 170000 ∧
        statusTextColour "#44FE05" = "#FFFFFF") ∧
      statusTextColour "#FFFFFF" = DEFAULT_TEXT_COLOR := by
  refine ⟨?_, by decide, by decide, ⟨by decide, by decide, by decide⟩, by decide⟩
  intro hex r g b hparse hne
  obtain ⟨hr, hg, hb⟩ := parseRGB_le hex r g b hparse
  have hclose := floatBrightness_close r g b hr hg hb
  obtain ⟨hlo, hhi⟩ := abs_le.mp hclose
  simp only [statusTextColour, hparse]
  by_cases hcase : 170000 ≤ 299 * r + 587 * g + 114 * b
  · rw [if_pos hcase]
    have hS : (170001 : ℕ) ≤ 299 * r + 587 * g + 114 * b := by omega
    have hSQ : (170001 : ℚ) ≤ ((299 * r + 587 * g + 114 * b : ℕ) : ℚ) := by
      exact_mod_cast hS
    have hval : (170 : ℚ) ≤ FP.val (floatBrightness r g b) := by linarith
    rw [if_pos ((fpGE170_iff _).mpr hval)]
  · rw [if_neg hcase]
    have hS : (299 * r + 587 * g + 114 * b : ℕ) ≤ 169999 := by omega
    have hSQ : ((299 * r + 587 * g + 114 * b : ℕ) : ℚ) ≤ 169999 := by
      exact_mod_cast hS
    have hval : FP.val (floatBrightness r g b) < 170 := by linarith
    have hff : ¬(fpGE170 (floatBrightness r g b) = true) := fun hcon =>
      absurd ((fpGE170_iff _).mp hcon) (not_le.mpr hval)
    rw [if_neg hff]

/-- Claim C1, witness: the amended rule instantiated at `#36B37E`, whose
exact brightness is off the threshold. -/
theorem claim_C1_amended_witness :
    (parseRGB "#36B37E" = some (54, 179, 126) ∧
        299 * 54 + 587 * 179 + 114 * 126 ≠ 170000) ∧
      statusTextColour "#36B37E" =
        (if 170000 ≤ 299 * 54 + 587 * 179 + 114 * 126 then DEFAULT_TEXT_COLOR
         else "#FFFFFF") :=
  ⟨⟨by decide, by decide⟩,
    claim_C1_amended.1 "#36B37E" 54 179 126 (by decide) (by decide)⟩

/-- Claim C2, counterexample.  With every passed input held fixed, two
invocations of the storage renderer at different clock readings produce
different strings: the generation timestamp is read inside `render`, not
passed in the metadata. -/
theorem claim_C2_counterexample :
    buildConfluenceStorage (fun s => s) "https://jira.example.com" "123" "" 0 []
        "2024-01-01 10:00 PST" ≠
      buildConfluenceStorage (fun s => s) "https://jira.example.com" "123" "" 0 []
        "2024-01-01 10:01 PST" := by
  decide

/-- Claim C2, amended.  The renderer is a pure function of its passed
inputs and the one `datetime.now` read it performs on entry: the clock
enters the output only through the HTML-escaped timestamp embedded in the
info panel (equal escaped readings give byte-identical output), and runs at
different clock readings differ. -/
theorem claim_C2_amended :
    (∀ (renderMarkdown : String → String) (url fid fname : String)
        (total : Nat) (blocks : List IssueBlock) (t1 t2 : String),
        escapeHtml t1 = escapeHtml t2 →
        buildConfluenceStorage renderMarkdown url fid fname total blocks t1 =
          buildConfluenceStorage renderMarkdown url fid fname total blocks t2) ∧
      buildConfluenceStorage (fun s => s) "https://jira.example.com" "123" "" 7
          [] "2024-03-05 09:00 PST" ≠
        buildConfluenceStorage (fun s => s) "https://jira.example.com" "123" "" 7
          [] "2024-03-06 09:00 PST" := by
  constructor
  · intro rm url fid fname total blocks t1 t2 h
    simp only [buildConfluenceStorage, h]
  · decide

/-- Claim C2, witness: the purity half instantiated at a concrete input. -/
theorem claim_C2_amended_witness :
    escapeHtml "2024-03-05 09:00 PST" = escapeHtml "2024-03-05 09:00 PST" ∧
      buildConfluenceStorage (fun s => s) "https://jira.example.com" "123" "" 7 []
          "2024-03-05 09:00 PST" =
        buildConfluenceStorage (fun s => s) "https://jira.example.com" "123" "" 7 []
          "2024-03-05 09:00 PST" :=
  ⟨rfl, claim_C2_amended.1 (fun s => s) "https://jira.example.com" "123" "" 7 []
    "2024-03-05 09:00 PST" "2024-03-05 09:00 PST" rfl⟩

/-- Claim C3 (code bug).  The provider's mention cache persists on the
instance across `build_issue_text` calls: after processing `leakIssueA`
(author `ua` → `User A`), the text built for `leakIssueB` resolves the
mention `[~ua]` to `User A`, whereas a fresh provider leaves the bare
identifier `ua` — the cache leaks across issues. -/
theorem claim_C3_cache_leak :
    (buildIssueText [] leakIssueB).1 =
        "Issue Key: B-2\nSummary: \nStatus: Unknown\nAssignee: Unassigned\n" ++
          "Reporter: Unknown\nCreated: Unknown time\nUpdated: Unknown time\n\n" ++
          "Description:\nping ua" ∧
      (buildIssueText (buildIssueText [] leakIssueA).2 leakIssueB).1 =
        "Issue Key: B-2\nSummary: \nStatus: Unknown\nAssignee: Unassigned\n" ++
          "Reporter: Unknown\nCreated: Unknown time\nUpdated: Unknown time\n\n" ++
          "Description:\nping User A" ∧
      (buildIssueText (buildIssueText [] leakIssueA).2 leakIssueB).1 ≠
        (buildIssueText [] leakIssueB).1 := by
  refine ⟨by decide, by decide, by decide⟩

/-- Claim C4 (code bug).  On a storage document containing a status macro
(the impediment badge the renderer itself emits), the email adapter's first
application already raises: `_build_status_span_from_macro` hands a
freshly created, parentless span to `_apply_status_styles`, whose
`replace_with` bs4 refuses — so no output exists for a second pass to
reproduce, refuting idempotence on every input. -/
theorem claim_C4_adapter_raises :
    enhanceEmailHtml [statusMacroDom] = .error bsReplaceWithMsg := rfl

/-- Claim C5, counterexample.  For a comment carrying both a structured
body (text `from tree`) and a non-empty `renderedBody` string (cleaning to
`from rendered`), `_extract_comment_body` returns the node-tree text — the
claim's preferred string form loses. -/
theorem claim_C5_counterexample :
    extractCommentBody [] bothFormsComment = "from tree" ∧
      "from tree" ≠ "from rendered" ∧
      cleanHtml [] (.str "from rendered") = "from rendered" := by
  refine ⟨by decide, by decide, by decide⟩

/-- Claim C5, amended.  For a comment with both forms, the two extractors
disagree: `issue_content._extract_comment_body` prefers the node-tree
traversal when it yields non-empty text, then the cleaned `renderedBody`,
then a best-effort cleaning of the raw body; `workflow._comment_text`
prefers the `renderedBody` string whenever it is non-empty (even if it
cleans to empty text), else falls back to the node-tree walk. -/
theorem claim_C5_amended : ∀ (cache : List (String × String))
    (bodyFields : List (String × JVal)) (rb : String),
    extractCommentBody cache
        (.obj [("body", .obj bodyFields), ("renderedBody", .str rb)]) =
      (if extractAdfTextIC cache (.obj bodyFields) ≠ "" then
        extractAdfTextIC cache (.obj bodyFields)
       else if cleanHtml cache (.str rb) ≠ "" then cleanHtml cache (.str rb)
       else cleanHtml cache (.obj bodyFields)) ∧
    commentText (.obj [("body", .obj bodyFields), ("renderedBody", .str rb)]) =
      (if rb ≠ "" then cleanText (.str rb)
       else cleanText (.str (extractAdfTextWF (.obj bodyFields)))) := by
  intro cache bf rb
  constructor
  · by_cases h1 : extractAdfTextIC cache (.obj bf) = "" <;>
      by_cases h2 : cleanHtml cache (.str rb) = "" <;>
        simp [extractCommentBody, JVal.getD, JVal.get, jLookup, h1, h2]
  · by_cases h : rb = "" <;>
      simp [commentText, JVal.getD, JVal.get, jLookup, JVal.truthy, h]

/-- Claim C6, counterexample.  An object with two non-empty candidate keys
contributes both values — the loop over `{value, name, displayName, title}`
has no break, so it is not "the first non-empty". -/
theorem claim_C6_counterexample :
    extractFieldValues (.obj [("value", .str "A"), ("name", .str "B")]) = ["A", "B"] ∧
      ["A", "B"] ≠ ["A"] := by
  refine ⟨by decide, by decide⟩

/-- Claim C6, amended.  The generic extractor passes strings through
trimmed, has each object contribute every non-empty of
`{value, name, displayName, title}` (in that order) and then recurse into a
`children` list if present, recurses elementwise into lists (dropping falsy
entries at the end, as the source's final comprehension does), returns the
empty sequence for absent input, and the "Unknown" sentinel is substituted
only at the product/customer call sites. -/
theorem claim_C6_amended :
    extractFieldValues .null = [] ∧
      (∀ s, extractFieldValues (.str s) =
        (if pyStrip s = "" then [] else [pyStrip s])) ∧
      (∀ items, extractFieldValues (.arr items) =
        ((items.map extractFieldValues).flatten).filter (fun v => v ≠ "")) ∧
      (∀ fields, extractFieldValues (.obj fields) =
        (["value", "name", "displayName", "title"].filterMap (fieldKeyContrib fields)) ++
          (match jLookup fields "children" with
           | some (.arr cs) => (cs.map extractFieldValues).flatten
           | _ => [])) ∧
      (∀ v, productNamesOf v =
        (if extractFieldValues v = [] then "Unknown"
         else String.intercalate ", " (extractFieldValues v))) ∧
      productNames (.obj [("fields", .obj [])]) = "Unknown" := by
  refine ⟨by rw [extractFieldValues.eq_def], ?_, ?_, ?_, ?_, by decide⟩
  · intro s
    rw [extractFieldValues_str_eq]
    by_cases h : pyStrip s = "" <;> simp [h]
  · intro items
    rw [extractFieldValues_arr_eq, extractFieldValuesList_eq_flatten]
  · intro fields
    rw [extractFieldValues_obj_eq, extractChildrenValues_eq]
    cases hj : jLookup fields "children" with
    | none => rfl
    | some v => cases v <;> simp [extractFieldValuesList_eq_flatten]
  · intro v
    by_cases h : extractFieldValues v = [] <;> simp [productNamesOf, h]

/-- Claim C7, counterexample.  In the issue-content extractor a `hardBreak`
emits nothing: the paragraph `a`·hardBreak·`b` extracts to `ab`, while the
workflow extractor yields `a\nb`. -/
theorem claim_C7_counterexample :
    extractAdfTextIC [] hardBreakDoc = "ab" ∧
      extractAdfTextWF hardBreakDoc = "a\nb" ∧
      ("ab" : String) ≠ "a\nb" := by
  refine ⟨by decide, by decide, by decide⟩

/-- Claim C7, amended.  Both walks emit literal text for `text` nodes, a
trailing newline after the children of `paragraph`/`heading`/`listItem`
nodes, recurse into `content` for every other node type, and are total by
construction; but only `workflow._extract_adf_text` emits a newline for
`hardBreak` — `issue_content._extract_adf_text` has no `hardBreak` case, so
a `hardBreak` falls into its generic recurse-into-content branch and emits
nothing. -/
theorem claim_C7_amended :
    (∀ cs, adfPartsWF (mkAdfNode "hardBreak" cs) = ["\n"]) ∧
      adfPartsIC (.obj [("type", .str "hardBreak")]) = [] ∧
      (∀ cs, adfPartsIC (mkAdfNode "hardBreak" cs) = adfPartsICList cs) ∧
      (∀ s, adfPartsWF (.obj [("type", .str "text"), ("text", .str s)]) =
        (if s = "" then [] else [s])) ∧
      (∀ s, adfPartsIC (.obj [("type", .str "text"), ("text", .str s)]) =
        (if s = "" then [] else [s])) ∧
      (∀ cs, adfPartsWF (mkAdfNode "paragraph" cs) = adfPartsWFList cs ++ ["\n"]) ∧
      (∀ cs, adfPartsWF (mkAdfNode "heading" cs) = adfPartsWFList cs ++ ["\n"]) ∧
      (∀ cs, adfPartsWF (mkAdfNode "listItem" cs) = adfPartsWFList cs ++ ["\n"]) ∧
      (∀ cs, adfPartsIC (mkAdfNode "paragraph" cs) = adfPartsICList cs ++ ["\n"]) ∧
      (∀ cs, adfPartsIC (mkAdfNode "heading" cs) = adfPartsICList cs ++ ["\n"]) ∧
      (∀ cs, adfPartsIC (mkAdfNode "listItem" cs) = adfPartsICList cs ++ ["\n"]) ∧
      (∀ t cs, t ≠ "text" → t ≠ "hardBreak" →
        adfPartsWF (mkAdfNode t cs) =
          adfPartsWFList cs ++
            (if t = "paragraph" ∨ t = "heading" ∨ t = "listItem" then ["\n"]
             else [])) ∧
      (∀ t cs, t ≠ "text" →
        adfPartsIC (mkAdfNode t cs) =
          adfPartsICList cs ++
            (if t = "paragraph" ∨ t = "heading" ∨ t = "listItem" then ["\n"]
             else [])) := by
  refine ⟨fun cs => rfl, rfl, ?_, ?_, ?_, fun cs => rfl, fun cs => rfl,
    fun cs => rfl, fun cs => rfl, fun cs => rfl, fun cs => rfl, ?_, ?_⟩
  · intro cs
    simp [adfPartsIC, mkAdfNode, adfType, adfContentIC, jLookup]
  · intro s
    by_cases h : s = "" <;> simp [adfPartsWF, adfType, jLookup, h]
  · intro s
    by_cases h : s = "" <;> simp [adfPartsIC, adfType, jLookup, h]
  · intro t cs h1 h2
    simp [adfPartsWF, mkAdfNode, adfType, jLookup, adfContentWF, h1, h2]
  · intro t cs h1
    simp [adfPartsIC, mkAdfNode, adfType, jLookup, adfContentIC, h1]

/-- Claim C7, witness: the two generic-recursion conjuncts instantiated at
a concrete unknown node type. -/
theorem claim_C7_amended_witness :
    ("unknownType" ≠ "text") ∧ ("unknownType" ≠ "hardBreak") ∧
      adfPartsWF (mkAdfNode "unknownType" [.obj [("type", .str "text"), ("text", .str "z")]]) =
        adfPartsWFList [.obj [("type", .str "text"), ("text", .str "z")]] ++
          (if ("unknownType" : String) = "paragraph" ∨ ("unknownType" : String) = "heading" ∨
              ("unknownType" : String) = "listItem" then ["\n"] else []) ∧
      adfPartsIC (mkAdfNode "unknownType" [.obj [("type", .str "text"), ("text", .str "z")]]) =
        adfPartsICList [.obj [("type", .str "text"), ("text", .str "z")]] ++
          (if ("unknownType" : String) = "paragraph" ∨ ("unknownType" : String) = "heading" ∨
              ("unknownType" : String) = "listItem" then ["\n"] else []) :=
  ⟨by decide, by decide,
    claim_C7_amended.2.2.2.2.2.2.2.2.2.2.2.1 "unknownType"
      [.obj [("type", .str "text"), ("text", .str "z")]] (by decide) (by decide),
    claim_C7_amended.2.2.2.2.2.2.2.2.2.2.2.2 "unknownType"
      [.obj [("type", .str "text"), ("text", .str "z")]] (by decide)⟩

/-- Claim C8, counterexample.  `validate("<p><b>x</p>")` does not return
two unclosed-tag errors: the `</p>` is reported as a mismatched closing tag
(popping `b`), and only `p` remains unclosed at end of scan. -/
theorem claim_C8_counterexample :
    validateHtml "<p><b>x</p>" =
        ["Mismatched closing tag </p> expected </b>", "Unclosed tag <p>"] ∧
      ["Mismatched closing tag </p> expected </b>", "Unclosed tag <p>"] ≠
        ["Unclosed tag <b>", "Unclosed tag <p>"] := by
  refine ⟨by decide, by decide⟩

/-- Claim C8, amended.  The structure validator returns no errors for
`<p><b>x</b></p>`; for `<p><b>x</p>` it returns exactly two errors, a
mismatched-closing-tag error for `</p>` (expecting `</b>`, which pops `b`)
followed by an unclosed-tag error for `p` at end of scan. -/
theorem claim_C8_amended :
    validateHtml "<p><b>x</b></p>" = [] ∧
      validateHtml "<p><b>x</p>" =
        ["Mismatched closing tag </p> expected </b>", "Unclosed tag <p>"] := by
  refine ⟨by decide, by decide⟩

/-- Claim C9 (confirmed).  Recency filtering retains exactly the comments
that survive the ignore filter, whose `created` parses under one of the two
formats, and whose instant is at or after `now - window` (the loop is the
evident `filterMap`); concretely, with `now = 2024-06-15T12:00:00Z` and a
24-hour window, the comment created exactly at the cutoff is retained, the
one a microsecond earlier and the unparseable one are dropped. -/
theorem claim_C9_recency_boundary :
    (∀ (nowUtcMicros lookbackHours : Int) (issue : JVal),
      collectRecentComments nowUtcMicros lookbackHours issue =
        (commentsOfIssue issue).filterMap (fun c =>
          if commentIgnoredWF c then none
          else
            match parseCommentDatetime (c.getD "created" .null) with
            | none => none
            | some t =>
                if nowUtcMicros - lookbackHours * 3600 * 1000000 ≤ t then some (c, t)
                else none)) ∧
      parseCommentDatetime (.str "2024-06-15T12:00:00+0000") =
        some 1718452800000000 ∧
      parseCommentDatetime (.str "2024-06-14T12:00:00.000000+0000") =
        some (1718452800000000 - 24 * 3600 * 1000000) ∧
      parseCommentDatetime (.str "not-a-timestamp") = none ∧
      (collectRecentComments 1718452800000000 24 boundaryIssue).map Prod.fst =
        [boundaryComment] := by
  refine ⟨?_, by decide, by decide, by decide, by decide⟩
  intro now hours issue
  simpa [collectRecentComments] using
    foldl_recentCommentStep (now - hours * 3600 * 1000000) (commentsOfIssue issue) []

/-- Claim C10 (confirmed).  Self-closing tags are dispatched as start-end
events, which the validator ignores, and start/end events on the fixed
void-element set leave its state unchanged; consequently the renderer's
table-of-contents macro — whose body is the self-closing
`<ac:rich-text-body/>` — validates in a balanced document with no errors. -/
theorem claim_C10_void_selfclosing :
    (∀ st tag, applyEvent st (.startEnd tag) = st) ∧
      (∀ st tag, pyLower tag ∈ VOID_ELEMENTS →
        applyEvent st (.start tag) = st ∧ applyEvent st (.endTag tag) = st) ∧
      validateHtml (tocDirective ++ "<p>x</p>") = [] := by
  refine ⟨fun st tag => rfl, fun st tag h => ⟨?_, ?_⟩, by decide⟩
  · simp [applyEvent, h]
  · simp [applyEvent, h]

/-- Claim C10, witness: the void-element conjunct instantiated at `br` with
a non-empty stack. -/
theorem claim_C10_void_selfclosing_witness :
    pyLower "br" ∈ VOID_ELEMENTS ∧
      applyEvent ⟨["p"], []⟩ (.start "br") = ⟨["p"], []⟩ ∧
      applyEvent ⟨["p"], []⟩ (.endTag "br") = ⟨["p"], []⟩ :=
  ⟨by decide, (claim_C10_void_selfclosing.2.1 ⟨["p"], []⟩ "br" (by decide)).1,
    (claim_C10_void_selfclosing.2.1 ⟨["p"], []⟩ "br" (by decide)).2⟩
